import Mathlib

/-!
Verification of the peniko color/gradient/brush core.

The `f32` machine floats of the source are modelled bit-exactly as IEEE-754
binary32 values: an `F32` is a sign bit plus a 31-bit magnitude word
(8-bit exponent, 23-bit fraction).  Arithmetic decodes to exact rationals
and rounds the result to nearest, ties to even, as IEEE-754 prescribes for
the basic operations `*`, `+`, `-`, `/` used by the source.
-/

/-- Round a rational to the nearest integer, ties to even. -/
def rne (q : ℚ) : ℤ :=
  if q - ⌊q⌋ < 1 / 2 then ⌊q⌋
  else if 1 / 2 < q - ⌊q⌋ then ⌊q⌋ + 1
  else if ⌊q⌋ % 2 = 0 then ⌊q⌋ else ⌊q⌋ + 1

/-- The nonnegative real value denoted by a 31-bit binary32 magnitude word
(exponent-255 words, i.e. infinities/NaNs, get junk values; they are never
decoded by the arithmetic below). -/
def magToQ (m : Nat) : ℚ :=
  if m < 2 ^ 23 then (m : ℚ) * (2 : ℚ) ^ (-149 : ℤ)
  else ((2 ^ 23 + m % 2 ^ 23 : ℕ) : ℚ) * (2 : ℚ) ^ ((m / 2 ^ 23 : ℕ) - 150 : ℤ)

/-- Round a positive rational to a binary32 magnitude word (round to nearest,
ties to even; `0x7f800000` encodes overflow to infinity). -/
def roundPosMag (q : ℚ) : Nat :=
  if q ≤ 0 then 0
  else if Int.log 2 q < -126 then (rne (q * (2 : ℚ) ^ (149 : ℤ))).toNat
  else if 127 < Int.log 2 q then 0x7f800000
  else if 2 ^ 24 ≤ (rne (q * (2 : ℚ) ^ (23 - Int.log 2 q))).toNat then
    if Int.log 2 q = 127 then 0x7f800000 else (Int.log 2 q + 128).toNat * 2 ^ 23
  else
    (Int.log 2 q + 127).toNat * 2 ^ 23 +
      ((rne (q * (2 : ℚ) ^ (23 - Int.log 2 q))).toNat - 2 ^ 23)

/-- IEEE-754 binary32 value: sign and 31-bit magnitude (exponent ++ fraction). -/
structure F32 where
  sign : Bool
  mag : Nat
  hmag : mag < 2 ^ 31
deriving DecidableEq

def F32.isNaN (x : F32) : Bool := 0x7f800000 < x.mag

def F32.isInf (x : F32) : Bool := x.mag = 0x7f800000

def F32.isZero (x : F32) : Bool := x.mag = 0

def F32.isFinite (x : F32) : Bool := x.mag < 0x7f800000

/-- The raw bit pattern, as produced by Rust's `f32::to_bits`. -/
def F32.toBits (x : F32) : Nat := (if x.sign then 2 ^ 31 else 0) + x.mag

/-- The exact rational value of a finite `F32`. -/
def F32.q (x : F32) : ℚ := if x.sign then -(magToQ x.mag) else magToQ x.mag

def f32zero : F32 := ⟨false, 0, by norm_num⟩

def f32negZero : F32 := ⟨true, 0, by norm_num⟩

def f32half : F32 := ⟨false, 0x3f000000, by norm_num⟩

def f32one : F32 := ⟨false, 0x3f800000, by norm_num⟩

def f32two : F32 := ⟨false, 0x40000000, by norm_num⟩

def f32_255 : F32 := ⟨false, 0x437f0000, by norm_num⟩

def f32inf : F32 := ⟨false, 0x7f800000, by norm_num⟩

/-- The canonical quiet NaN. -/
def f32nan : F32 := ⟨false, 0x7fc00000, by norm_num⟩

theorem rne_le (q : ℚ) : (rne q : ℚ) ≤ q + 1 / 2 := by
  have hf : (⌊q⌋ : ℚ) ≤ q := Int.floor_le q
  unfold rne
  split
  · linarith
  · rename_i h
    push_neg at h
    split
    · push_cast
      linarith
    · split
      · linarith
      · push_cast
        linarith

theorem rne_intCast (n : ℤ) : rne ((n : ℤ) : ℚ) = n := by
  unfold rne
  rw [Int.floor_intCast]
  norm_num

theorem roundPosMag_le (q : ℚ) : roundPosMag q ≤ 0x7f800000 := by
  unfold roundPosMag
  split
  · norm_num
  · rename_i hq0
    have hq : 0 < q := lt_of_not_ge hq0
    split
    · -- subnormal branch
      rename_i hlt
      have hub : q < (2 : ℚ) ^ (Int.log 2 q + 1) := Int.lt_zpow_succ_log_self (by norm_num) q
      have h1 : (2 : ℚ) ^ (Int.log 2 q + 1) ≤ (2 : ℚ) ^ (-126 : ℤ) :=
        zpow_le_zpow_right₀ (by norm_num) (by omega)
      have h2 : q * (2 : ℚ) ^ (149 : ℤ) < (2 : ℚ) ^ (23 : ℤ) := by
        have hq126 : q < (2 : ℚ) ^ (-126 : ℤ) := lt_of_lt_of_le hub h1
        calc q * (2 : ℚ) ^ (149 : ℤ) < (2 : ℚ) ^ (-126 : ℤ) * (2 : ℚ) ^ (149 : ℤ) := by
              apply mul_lt_mul_of_pos_right hq126 (by positivity)
          _ = (2 : ℚ) ^ (23 : ℤ) := by
              rw [← zpow_add₀ (by norm_num : (2 : ℚ) ≠ 0)]
              norm_num
      have h23 : ((2 : ℚ) ^ (23 : ℤ)) = 8388608 := by norm_num
      rw [h23] at h2
      have h5 := rne_le (q * (2 : ℚ) ^ (149 : ℤ))
      have h4 : rne (q * (2 : ℚ) ^ (149 : ℤ)) < 8388609 := by
        set c : ℤ := rne (q * (2 : ℚ) ^ (149 : ℤ)) with hc
        have hq1 : (c : ℚ) < 8388609 := by linarith
        exact_mod_cast hq1
      omega
    · split
      · norm_num
      · rename_i hge hle
        push_neg at hge hle
        split
        · split
          · norm_num
          · rename_i hcarry hne
            have h254 : (Int.log 2 q + 128).toNat ≤ 254 := by omega
            calc (Int.log 2 q + 128).toNat * 2 ^ 23 ≤ 254 * 2 ^ 23 :=
              Nat.mul_le_mul_right _ h254
              _ ≤ 0x7f800000 := by norm_num
        · rename_i hlt
          push_neg at hlt
          have h1 : (Int.log 2 q + 127).toNat ≤ 254 := by omega
          have h2 : (rne (q * (2 : ℚ) ^ (23 - Int.log 2 q))).toNat - 2 ^ 23 ≤ 2 ^ 23 - 1 := by
            omega
          calc (Int.log 2 q + 127).toNat * 2 ^ 23 +
                ((rne (q * (2 : ℚ) ^ (23 - Int.log 2 q))).toNat - 2 ^ 23)
              ≤ 254 * 2 ^ 23 + (2 ^ 23 - 1) :=
                Nat.add_le_add (Nat.mul_le_mul_right _ h1) h2
            _ ≤ 0x7f800000 := by norm_num

/-- Build an `F32` with the given sign from a positive rational, rounding to
nearest (ties to even). -/
def ofPosQ (s : Bool) (q : ℚ) : F32 :=
  ⟨s, roundPosMag q, lt_of_le_of_lt (roundPosMag_le q) (by norm_num)⟩

theorem log_unique (q : ℚ) (n : ℤ) (hq : 0 < q) (h1 : (2 : ℚ) ^ n ≤ q)
    (h2 : q < (2 : ℚ) ^ (n + 1)) : Int.log 2 q = n := by
  have hb : 1 < 2 := by norm_num
  have h3 : n ≤ Int.log 2 q := (Int.zpow_le_iff_le_log hb hq).mp (by exact_mod_cast h1)
  have h4 : Int.log 2 q < n + 1 := (Int.lt_zpow_iff_log_lt hb hq).mp (by exact_mod_cast h2)
  omega

theorem magToQ_pos {m : Nat} (h : 0 < m) : 0 < magToQ m := by
  unfold magToQ
  split
  · have hm : (0 : ℚ) < (m : ℚ) := by exact_mod_cast h
    positivity
  · positivity

theorem magToQ_zero : magToQ 0 = 0 := by norm_num [magToQ]

/-- Rounding is a left inverse of decoding: every positive finite magnitude
word round-trips through its exact rational value. -/
theorem roundPosMag_magToQ (m : Nat) (h1 : 0 < m) (h2 : m < 0x7f800000) :
    roundPosMag (magToQ m) = m := by
  have h2ne : (2 : ℚ) ≠ 0 := by norm_num
  by_cases hsub : m < 2 ^ 23
  · -- subnormal (or zero-exponent) magnitudes
    have hqdef : magToQ m = (m : ℚ) * (2 : ℚ) ^ (-149 : ℤ) := by
      unfold magToQ
      rw [if_pos hsub]
    have hqpos : 0 < magToQ m := magToQ_pos h1
    have hub : magToQ m < (2 : ℚ) ^ (-126 : ℤ) := by
      rw [hqdef]
      have hm : (m : ℚ) < (2 : ℚ) ^ (23 : ℤ) := by
        have hc : (m : ℚ) < ((2 ^ 23 : ℕ) : ℚ) := by exact_mod_cast hsub
        have h23 : ((2 ^ 23 : ℕ) : ℚ) = (2 : ℚ) ^ (23 : ℤ) := by norm_num
        rw [h23] at hc
        exact hc
      calc (m : ℚ) * (2 : ℚ) ^ (-149 : ℤ) < (2 : ℚ) ^ (23 : ℤ) * (2 : ℚ) ^ (-149 : ℤ) := by
            apply mul_lt_mul_of_pos_right hm (by positivity)
        _ = (2 : ℚ) ^ (-126 : ℤ) := by
            rw [← zpow_add₀ h2ne]
            norm_num
    have hlog : Int.log 2 (magToQ m) < -126 := by
      apply (Int.lt_zpow_iff_log_lt (by norm_num : 1 < 2) hqpos).mp
      exact_mod_cast hub
    unfold roundPosMag
    rw [if_neg (not_le.mpr hqpos), if_pos hlog]
    have harg : magToQ m * (2 : ℚ) ^ (149 : ℤ) = ((m : ℤ) : ℚ) := by
      rw [hqdef, mul_assoc, ← zpow_add₀ h2ne]
      norm_num
    rw [harg, rne_intCast]
    omega
  · -- normal magnitudes
    push_neg at hsub
    have hE1 : 1 ≤ m / 2 ^ 23 := by omega
    have hE254 : m / 2 ^ 23 ≤ 254 := by omega
    have hflt : m % 2 ^ 23 < 2 ^ 23 := Nat.mod_lt _ (by norm_num)
    have hqdef : magToQ m =
        ((2 ^ 23 + m % 2 ^ 23 : ℕ) : ℚ) * (2 : ℚ) ^ (((m / 2 ^ 23 : ℕ) : ℤ) - 150) := by
      unfold magToQ
      rw [if_neg (by omega)]
    have hqpos : 0 < magToQ m := magToQ_pos h1
    have hlog : Int.log 2 (magToQ m) = ((m / 2 ^ 23 : ℕ) : ℤ) - 127 := by
      apply log_unique _ _ hqpos
      · rw [hqdef]
        have hlb : (2 : ℚ) ^ (23 : ℤ) ≤ ((2 ^ 23 + m % 2 ^ 23 : ℕ) : ℚ) := by
          push_cast
          norm_num
        calc (2 : ℚ) ^ (((m / 2 ^ 23 : ℕ) : ℤ) - 127)
            = (2 : ℚ) ^ (23 : ℤ) * (2 : ℚ) ^ (((m / 2 ^ 23 : ℕ) : ℤ) - 150) := by
              rw [← zpow_add₀ h2ne]
              ring_nf
          _ ≤ ((2 ^ 23 + m % 2 ^ 23 : ℕ) : ℚ) * (2 : ℚ) ^ (((m / 2 ^ 23 : ℕ) : ℤ) - 150) := by
              apply mul_le_mul_of_nonneg_right hlb (by positivity)
      · rw [hqdef]
        have hub : ((2 ^ 23 + m % 2 ^ 23 : ℕ) : ℚ) < (2 : ℚ) ^ (24 : ℤ) := by
          have hc : ((2 ^ 23 + m % 2 ^ 23 : ℕ) : ℚ) < ((2 ^ 24 : ℕ) : ℚ) := by
            exact_mod_cast by omega
          have h24 : ((2 ^ 24 : ℕ) : ℚ) = (2 : ℚ) ^ (24 : ℤ) := by norm_num
          rw [h24] at hc
          exact hc
        calc ((2 ^ 23 + m % 2 ^ 23 : ℕ) : ℚ) * (2 : ℚ) ^ (((m / 2 ^ 23 : ℕ) : ℤ) - 150)
            < (2 : ℚ) ^ (24 : ℤ) * (2 : ℚ) ^ (((m / 2 ^ 23 : ℕ) : ℤ) - 150) := by
              apply mul_lt_mul_of_pos_right hub (by positivity)
          _ = (2 : ℚ) ^ (((m / 2 ^ 23 : ℕ) : ℤ) - 127 + 1) := by
              rw [← zpow_add₀ h2ne]
              ring_nf
    unfold roundPosMag
    rw [if_neg (not_le.mpr hqpos)]
    rw [hlog]
    rw [if_neg (by omega), if_neg (by omega)]
    have harg : magToQ m * (2 : ℚ) ^ (23 - (((m / 2 ^ 23 : ℕ) : ℤ) - 127))
        = (((2 ^ 23 + m % 2 ^ 23 : ℕ) : ℤ) : ℚ) := by
      rw [hqdef, mul_assoc, ← zpow_add₀ h2ne]
      have hzero : ((m / 2 ^ 23 : ℕ) : ℤ) - 150 + (23 - (((m / 2 ^ 23 : ℕ) : ℤ) - 127)) = 0 := by
        ring
      rw [hzero, zpow_zero, mul_one]
      norm_cast
    rw [harg, rne_intCast]
    have hsnat : ((2 ^ 23 + m % 2 ^ 23 : ℕ) : ℤ).toNat = 2 ^ 23 + m % 2 ^ 23 := by omega
    rw [hsnat]
    rw [if_neg (by omega)]
    have hEt : (((m / 2 ^ 23 : ℕ) : ℤ) - 127 + 127).toNat = m / 2 ^ 23 := by omega
    rw [hEt]
    omega

theorem F32.ext' (a b : F32) (h1 : a.sign = b.sign) (h2 : a.mag = b.mag) : a = b := by
  cases a
  cases b
  simp_all

/-- Rounding an exactly representable value returns its representation. -/
theorem ofPosQ_exact (s : Bool) (q : ℚ) (m : Nat) (h1 : 0 < m) (h2 : m < 0x7f800000)
    (hq : q = magToQ m) (hm : m < 2 ^ 31) : ofPosQ s q = ⟨s, m, hm⟩ := by
  apply F32.ext'
  · simp [ofPosQ]
  · simp only [ofPosQ]
    rw [hq]
    exact roundPosMag_magToQ m h1 h2

/-! ### Arithmetic operations on `F32` (IEEE-754 semantics) -/

def f32Neg (x : F32) : F32 := ⟨!x.sign, x.mag, x.hmag⟩

/-- IEEE-754 binary32 multiplication (round to nearest, ties to even). -/
def f32Mul (a b : F32) : F32 :=
  if a.isNaN || b.isNaN then f32nan
  else if a.isInf || b.isInf then
    if a.isZero || b.isZero then f32nan
    else ⟨xor a.sign b.sign, 0x7f800000, by norm_num⟩
  else if a.isZero || b.isZero then ⟨xor a.sign b.sign, 0, by norm_num⟩
  else ofPosQ (xor a.sign b.sign) (magToQ a.mag * magToQ b.mag)

/-- IEEE-754 binary32 addition (round to nearest, ties to even). -/
def f32Add (a b : F32) : F32 :=
  if a.isNaN || b.isNaN then f32nan
  else if a.isInf then
    if b.isInf && (a.sign != b.sign) then f32nan else a
  else if b.isInf then b
  else if a.q + b.q = 0 then ⟨a.sign && b.sign, 0, by norm_num⟩
  else ofPosQ (decide (a.q + b.q < 0)) |a.q + b.q|

/-- IEEE-754 binary32 subtraction: `a - b = a + (-b)`. -/
def f32Sub (a b : F32) : F32 := f32Add a (f32Neg b)

/-- IEEE-754 binary32 division (round to nearest, ties to even). -/
def f32Div (a b : F32) : F32 :=
  if a.isNaN || b.isNaN then f32nan
  else if a.isInf then
    if b.isInf then f32nan else ⟨xor a.sign b.sign, 0x7f800000, by norm_num⟩
  else if b.isInf then ⟨xor a.sign b.sign, 0, by norm_num⟩
  else if b.isZero then
    if a.isZero then f32nan else ⟨xor a.sign b.sign, 0x7f800000, by norm_num⟩
  else if a.isZero then ⟨xor a.sign b.sign, 0, by norm_num⟩
  else ofPosQ (xor a.sign b.sign) (magToQ a.mag / magToQ b.mag)

/-- IEEE-754 equality (Rust `==` on `f32`): `NaN` compares unequal to
everything, the two zeros compare equal, all other values are equal exactly
when their representations coincide. -/
def f32Beq (a b : F32) : Bool :=
  if a.isNaN || b.isNaN then false
  else if a.isZero && b.isZero then true
  else a = b

/-- Rust's `usize as f32` / `u8 as f32` cast (round to nearest, ties even;
exact on all values appearing in this development). -/
def natToF32 (n : Nat) : F32 := if n = 0 then f32zero else ofPosQ false (n : ℚ)

/-! ### Basic facts about the operations -/

theorem magToQ_one : magToQ 0x3f800000 = 1 := by norm_num [magToQ]

theorem magToQ_half : magToQ 0x3f000000 = 1 / 2 := by norm_num [magToQ]

theorem magToQ_two : magToQ 0x40000000 = 2 := by norm_num [magToQ]

theorem F32.q_zeroMag (z : F32) (hz : z.mag = 0) : z.q = 0 := by
  simp [F32.q, hz, magToQ_zero]

theorem F32.q_ne_zero (x : F32) (hx : x.isZero = false) : x.q ≠ 0 := by
  have hm : 0 < x.mag := by
    simp [F32.isZero] at hx
    omega
  have hpos : 0 < magToQ x.mag := magToQ_pos hm
  unfold F32.q
  split <;> intro hcon <;> linarith [hpos]

theorem f32Beq_refl (x : F32) (hx : x.isNaN = false) : f32Beq x x = true := by
  unfold f32Beq
  rw [hx]
  simp

theorem isNaN_false_of_finite (x : F32) (h : x.isFinite = true) : x.isNaN = false := by
  simp [F32.isFinite] at h
  simp [F32.isNaN]
  omega

theorem isInf_false_of_finite (x : F32) (h : x.isFinite = true) : x.isInf = false := by
  simp [F32.isFinite] at h
  simp [F32.isInf]
  omega

theorem mag_lt_of_not_nan_not_inf (x : F32) (h1 : x.isNaN = false) (h2 : x.isInf = false) :
    x.mag < 0x7f800000 := by
  simp [F32.isNaN] at h1
  simp [F32.isInf] at h2
  omega

/-- Multiplying a non-NaN float by `1.0` returns it unchanged (bit for bit). -/
theorem f32Mul_one (x : F32) (hx : x.isNaN = false) : f32Mul x f32one = x := by
  have h1 : f32one.isNaN = false := rfl
  have h2 : f32one.isInf = false := rfl
  have h3 : f32one.isZero = false := rfl
  unfold f32Mul
  rw [hx, h1, h2, h3]
  simp only [Bool.or_false]
  rw [if_neg (by simp)]
  by_cases hinf : x.isInf = true
  · rw [hinf]
    rw [if_pos rfl]
    have hz : x.isZero = false := by
      simp [F32.isInf] at hinf
      simp [F32.isZero]
      omega
    rw [hz]
    rw [if_neg (by simp)]
    apply F32.ext'
    · simp [f32one]
    · simp [F32.isInf] at hinf
      simp [hinf]
  · rw [Bool.not_eq_true] at hinf
    rw [hinf]
    rw [if_neg (by simp)]
    by_cases hz : x.isZero = true
    · rw [hz]
      rw [if_pos rfl]
      apply F32.ext'
      · simp [f32one]
      · simp [F32.isZero] at hz
        simp [hz]
    · rw [Bool.not_eq_true] at hz
      rw [hz]
      rw [if_neg (by simp)]
      have hm1 : magToQ f32one.mag = 1 := magToQ_one
      have hsg : f32one.sign = false := rfl
      rw [hm1, mul_one, hsg]
      have hmpos : 0 < x.mag := by
        simp [F32.isZero] at hz
        omega
      have hmlt : x.mag < 0x7f800000 := mag_lt_of_not_nan_not_inf x hx hinf
      have := ofPosQ_exact (xor x.sign false) (magToQ x.mag) x.mag hmpos hmlt rfl x.hmag
      rw [this]
      apply F32.ext' <;> simp

/-- Multiplying a finite float by a zero gives a (signed) zero. -/
theorem f32Mul_zeroR (x z : F32) (hz : z.mag = 0) (hx : x.isFinite = true) :
    f32Mul x z = ⟨xor x.sign z.sign, 0, by norm_num⟩ := by
  have hxn : x.isNaN = false := isNaN_false_of_finite x hx
  have hxi : x.isInf = false := isInf_false_of_finite x hx
  have hzn : z.isNaN = false := by simp [F32.isNaN, hz]
  have hzi : z.isInf = false := by simp [F32.isInf, hz]
  have hzz : z.isZero = true := by simp [F32.isZero, hz]
  unfold f32Mul
  rw [hxn, hxi, hzn, hzi, hzz]
  simp

/-- Adding a zero to a finite nonzero (or infinite) non-NaN float returns it
unchanged. -/
theorem f32Add_zeroR (x z : F32) (hz : z.mag = 0) (hx : x.isNaN = false)
    (hxz : x.isZero = false) : f32Add x z = x := by
  have hzn : z.isNaN = false := by simp [F32.isNaN, hz]
  have hzi : z.isInf = false := by simp [F32.isInf, hz]
  unfold f32Add
  rw [hx, hzn, hzi]
  simp only [Bool.or_false, Bool.false_and]
  by_cases hinf : x.isInf = true
  · rw [hinf]
    rw [if_neg (by simp), if_pos rfl]
    rw [if_neg (by simp)]
  · rw [Bool.not_eq_true] at hinf
    rw [hinf]
    rw [if_neg (by simp), if_neg (by simp)]
    rw [F32.q_zeroMag z hz, add_zero]
    rw [if_neg (F32.q_ne_zero x hxz)]
    have hmpos : 0 < x.mag := by
      simp [F32.isZero] at hxz
      omega
    have hmlt : x.mag < 0x7f800000 := mag_lt_of_not_nan_not_inf x hx hinf
    by_cases hs : x.sign = true
    · have hqneg : x.q < 0 := by
        unfold F32.q
        rw [hs]
        simp
        exact magToQ_pos hmpos
      have habs : |x.q| = magToQ x.mag := by
        unfold F32.q
        rw [hs]
        simp
        exact le_of_lt (magToQ_pos hmpos)
      rw [habs]
      have := ofPosQ_exact (decide (x.q < 0)) (magToQ x.mag) x.mag hmpos hmlt rfl x.hmag
      rw [this]
      apply F32.ext'
      · show decide (x.q < 0) = x.sign
        rw [hs]
        simp only [decide_eq_true_eq]
        exact hqneg
      · rfl
    · rw [Bool.not_eq_true] at hs
      have hqpos : 0 < x.q := by
        unfold F32.q
        rw [hs]
        simp
        exact magToQ_pos hmpos
      have habs : |x.q| = magToQ x.mag := by
        unfold F32.q
        rw [hs]
        simp
        exact le_of_lt (magToQ_pos hmpos)
      rw [habs]
      have := ofPosQ_exact (decide (x.q < 0)) (magToQ x.mag) x.mag hmpos hmlt rfl x.hmag
      rw [this]
      apply F32.ext'
      · show decide (x.q < 0) = x.sign
        rw [hs]
        simp only [decide_eq_false_iff_not, not_lt]
        exact le_of_lt hqpos
      · rfl

theorem F32.q_neg (x : F32) : (f32Neg x).q = -x.q := by
  unfold F32.q f32Neg
  cases hs : x.sign <;> simp

theorem f32Add_zero_both (x z : F32) (hxm : x.mag = 0) (hzm : z.mag = 0) :
    f32Add x z = ⟨x.sign && z.sign, 0, by norm_num⟩ := by
  have hxn : x.isNaN = false := by simp [F32.isNaN, hxm]
  have hxi : x.isInf = false := by simp [F32.isInf, hxm]
  have hzn : z.isNaN = false := by simp [F32.isNaN, hzm]
  have hzi : z.isInf = false := by simp [F32.isInf, hzm]
  unfold f32Add
  rw [hxn, hzn, hxi, hzi]
  simp only [Bool.or_self, Bool.false_and]
  rw [if_neg (by simp), if_neg (by simp), if_neg (by simp)]
  rw [if_pos (by rw [F32.q_zeroMag x hxm, F32.q_zeroMag z hzm]; norm_num)]

/-- Adding a zero on the right gives a result that compares IEEE-equal to the
other operand, for any non-NaN operand. -/
theorem f32Add_zeroR_beq (x z : F32) (hz : z.mag = 0) (hx : x.isNaN = false) :
    f32Beq (f32Add x z) x = true := by
  by_cases hxz : x.isZero = true
  · have hxm : x.mag = 0 := by
      simp [F32.isZero] at hxz
      exact hxz
    rw [f32Add_zero_both x z hxm hz]
    unfold f32Beq
    rw [hx]
    simp only [Bool.or_false]
    rw [if_neg (by simp [F32.isNaN])]
    rw [if_pos (by simp [F32.isZero, hxm])]
  · rw [Bool.not_eq_true] at hxz
    rw [f32Add_zeroR x z hz hx hxz]
    exact f32Beq_refl x hx

theorem f32Add_zeroL (x z : F32) (hz : z.mag = 0) (hx : x.isNaN = false)
    (hxz : x.isZero = false) : f32Add z x = x := by
  have hzn : z.isNaN = false := by simp [F32.isNaN, hz]
  have hzi : z.isInf = false := by simp [F32.isInf, hz]
  unfold f32Add
  rw [hx, hzn, hzi]
  simp only [Bool.or_false, Bool.false_or]
  rw [if_neg (by simp), if_neg (by simp)]
  by_cases hinf : x.isInf = true
  · rw [hinf, if_pos rfl]
  · rw [Bool.not_eq_true] at hinf
    rw [hinf, if_neg (by simp)]
    rw [F32.q_zeroMag z hz, zero_add]
    rw [if_neg (F32.q_ne_zero x hxz)]
    have hmpos : 0 < x.mag := by
      simp [F32.isZero] at hxz
      omega
    have hmlt : x.mag < 0x7f800000 := mag_lt_of_not_nan_not_inf x hx hinf
    by_cases hs : x.sign = true
    · have hqneg : x.q < 0 := by
        unfold F32.q
        rw [hs]
        simp
        exact magToQ_pos hmpos
      have habs : |x.q| = magToQ x.mag := by
        unfold F32.q
        rw [hs]
        simp
        exact le_of_lt (magToQ_pos hmpos)
      rw [habs]
      have := ofPosQ_exact (decide (x.q < 0)) (magToQ x.mag) x.mag hmpos hmlt rfl x.hmag
      rw [this]
      apply F32.ext'
      · show decide (x.q < 0) = x.sign
        rw [hs]
        simp only [decide_eq_true_eq]
        exact hqneg
      · rfl
    · rw [Bool.not_eq_true] at hs
      have hqpos : 0 < x.q := by
        unfold F32.q
        rw [hs]
        simp
        exact magToQ_pos hmpos
      have habs : |x.q| = magToQ x.mag := by
        unfold F32.q
        rw [hs]
        simp
        exact le_of_lt (magToQ_pos hmpos)
      rw [habs]
      have := ofPosQ_exact (decide (x.q < 0)) (magToQ x.mag) x.mag hmpos hmlt rfl x.hmag
      rw [this]
      apply F32.ext'
      · show decide (x.q < 0) = x.sign
        rw [hs]
        simp only [decide_eq_false_iff_not, not_lt]
        exact le_of_lt hqpos
      · rfl

/-- Adding a zero on the left gives a result that compares IEEE-equal to the
other operand, for any non-NaN operand. -/
theorem f32Add_zeroL_beq (x z : F32) (hz : z.mag = 0) (hx : x.isNaN = false) :
    f32Beq (f32Add z x) x = true := by
  by_cases hxz : x.isZero = true
  · have hxm : x.mag = 0 := by
      simp [F32.isZero] at hxz
      exact hxz
    rw [f32Add_zero_both z x hz hxm]
    unfold f32Beq
    rw [hx]
    simp only [Bool.or_false]
    rw [if_neg (by simp [F32.isNaN])]
    rw [if_pos (by simp [F32.isZero, hxm])]
  · rw [Bool.not_eq_true] at hxz
    rw [f32Add_zeroL x z hz hx hxz]
    exact f32Beq_refl x hx

/-- Adding the negation of a finite float to itself gives `+0.0`. -/
theorem f32Add_cancel (x : F32) (hx : x.isNaN = false) (hxi : x.isInf = false) :
    f32Add x (f32Neg x) = f32zero := by
  have hnn : (f32Neg x).isNaN = x.isNaN := rfl
  have hni : (f32Neg x).isInf = x.isInf := rfl
  unfold f32Add
  rw [hnn, hx, hni, hxi]
  simp only [Bool.or_self, Bool.false_and]
  rw [if_neg (by simp), if_neg (by simp), if_neg (by simp)]
  rw [if_pos (by rw [F32.q_neg]; ring)]
  apply F32.ext'
  · show (x.sign && (f32Neg x).sign) = f32zero.sign
    show (x.sign && !x.sign) = false
    simp
  · rfl

theorem natToF32_zero : natToF32 0 = f32zero := rfl

theorem natToF32_one : natToF32 1 = f32one := by
  unfold natToF32
  rw [if_neg one_ne_zero]
  exact ofPosQ_exact false ((1 : ℕ) : ℚ) 0x3f800000 (by norm_num) (by norm_num)
    (by rw [magToQ_one]; norm_num) (by norm_num)

theorem natToF32_two : natToF32 2 = f32two := by
  unfold natToF32
  rw [if_neg (by norm_num)]
  exact ofPosQ_exact false ((2 : ℕ) : ℚ) 0x40000000 (by norm_num) (by norm_num)
    (by rw [magToQ_two]; norm_num) (by norm_num)

theorem f32Div_zero_one : f32Div f32zero f32one = f32zero := rfl

theorem f32Div_zero_two : f32Div f32zero f32two = f32zero := rfl

theorem f32Div_one_two : f32Div f32one f32two = f32half := by
  have h1 : f32Div f32one f32two = ofPosQ false (magToQ f32one.mag / magToQ f32two.mag) := rfl
  rw [h1, show magToQ f32one.mag = 1 from magToQ_one, show magToQ f32two.mag = 2 from magToQ_two]
  exact ofPosQ_exact false (1 / 2) 0x3f000000 (by norm_num) (by norm_num)
    (by rw [magToQ_half]) (by norm_num)

theorem f32Div_two_two : f32Div f32two f32two = f32one := by
  have h1 : f32Div f32two f32two = ofPosQ false (magToQ f32two.mag / magToQ f32two.mag) := rfl
  rw [h1, show magToQ f32two.mag = 2 from magToQ_two]
  have h2 : (2 : ℚ) / 2 = 1 := by norm_num
  rw [h2]
  exact ofPosQ_exact false 1 0x3f800000 (by norm_num) (by norm_num)
    (by rw [magToQ_one]) (by norm_num)

theorem f32Sub_one_zero : f32Sub f32one f32zero = f32one := by
  unfold f32Sub
  exact f32Add_zeroR f32one (f32Neg f32zero) rfl rfl rfl

theorem f32Sub_one_one : f32Sub f32one f32one = f32zero := by
  unfold f32Sub
  exact f32Add_cancel f32one rfl rfl

/-! ### The color model (src/color.rs) -/

/-- Modelled from the spec: the source converts 8-bit sRGB channels to linear
floats through the external `fast_srgb8::srgb8_to_f32` lookup table, which is
not part of this repository.  The spec requires only a deterministic
"table- or formula-driven sRGB transfer function"; this model uses the linear
scale `b / 255.0`, which is deterministic and monotone.  No claim in this
development depends on the actual table entries. -/
def srgb8_to_f32 (b : Nat) : F32 := f32Div (natToF32 b) f32_255

/-- `Color` of src/color.rs: four `f32` channels, linear sRGB, alpha not
premultiplied. -/
structure Color where
  red : F32
  green : F32
  blue : F32
  alpha : F32
deriving DecidableEq

/-- The derived `PartialEq` of `Color`: IEEE `==` on each channel. -/
def Color.beq (a b : Color) : Bool :=
  f32Beq a.red b.red && f32Beq a.green b.green && f32Beq a.blue b.blue &&
    f32Beq a.alpha b.alpha

/-- `Color::rgb8`. -/
def Color.rgb8 (r g b : Nat) : Color :=
  { red := srgb8_to_f32 r
    green := srgb8_to_f32 g
    blue := srgb8_to_f32 b
    alpha := f32one }

/-- `Color::rgba8`: alpha is `a as f32 / 255.0`. -/
def Color.rgba8 (r g b a : Nat) : Color :=
  { Color.rgb8 r g b with alpha := f32Div (natToF32 a) f32_255 }

/-- `Color::with_alpha_factor`: multiplies alpha by the given factor. -/
def Color.with_alpha_factor (c : Color) (alpha : F32) : Color :=
  { c with alpha := f32Mul c.alpha alpha }

/-- `Color::premultiply`. -/
def Color.premultiply (c : Color) : Color :=
  { red := f32Mul c.red c.alpha
    green := f32Mul c.green c.alpha
    blue := f32Mul c.blue c.alpha
    alpha := c.alpha }

/-- The free function `lerp` of src/color.rs: `a * (1.0 - t) + b * t`. -/
def lerpF32 (a b t : F32) : F32 := f32Add (f32Mul a (f32Sub f32one t)) (f32Mul b t)

/-- `Color::lerp`: channel-wise linear interpolation. -/
def Color.lerp (c other : Color) (t : F32) : Color :=
  { red := lerpF32 c.red other.red t
    green := lerpF32 c.green other.green t
    blue := lerpF32 c.blue other.blue t
    alpha := lerpF32 c.alpha other.alpha t }

/-! Named SVG color constants of src/color.rs. -/

def Color.ALICE_BLUE : Color := Color.rgb8 240 248 255
def Color.ANTIQUE_WHITE : Color := Color.rgb8 250 235 215
def Color.AQUA : Color := Color.rgb8 0 255 255
def Color.AQUAMARINE : Color := Color.rgb8 127 255 212
def Color.AZURE : Color := Color.rgb8 240 255 255
def Color.BEIGE : Color := Color.rgb8 245 245 220
def Color.BISQUE : Color := Color.rgb8 255 228 196
def Color.BLACK : Color := Color.rgb8 0 0 0
def Color.BLANCHED_ALMOND : Color := Color.rgb8 255 235 205
def Color.BLUE : Color := Color.rgb8 0 0 255
def Color.BLUE_VIOLET : Color := Color.rgb8 138 43 226
def Color.BROWN : Color := Color.rgb8 165 42 42
def Color.BURLYWOOD : Color := Color.rgb8 222 184 135
def Color.CADET_BLUE : Color := Color.rgb8 95 158 160
def Color.CHARTREUSE : Color := Color.rgb8 127 255 0
def Color.CHOCOLATE : Color := Color.rgb8 210 105 30
def Color.CORAL : Color := Color.rgb8 255 127 80
def Color.CORNFLOWER_BLUE : Color := Color.rgb8 100 149 237
def Color.CORNSILK : Color := Color.rgb8 255 248 220
def Color.CRIMSON : Color := Color.rgb8 220 20 60
def Color.CYAN : Color := Color.rgb8 0 255 255
def Color.DARK_BLUE : Color := Color.rgb8 0 0 139
def Color.DARK_CYAN : Color := Color.rgb8 0 139 139
def Color.DARK_GOLDENROD : Color := Color.rgb8 184 134 11
def Color.DARK_GRAY : Color := Color.rgb8 169 169 169
def Color.DARK_GREEN : Color := Color.rgb8 0 100 0
def Color.DARK_KHAKI : Color := Color.rgb8 189 183 107
def Color.DARK_MAGENTA : Color := Color.rgb8 139 0 139
def Color.DARK_OLIVE_GREEN : Color := Color.rgb8 85 107 47
def Color.DARK_ORANGE : Color := Color.rgb8 255 140 0
def Color.DARK_ORCHID : Color := Color.rgb8 153 50 204
def Color.DARK_RED : Color := Color.rgb8 139 0 0
def Color.DARK_SALMON : Color := Color.rgb8 233 150 122
def Color.DARK_SEA_GREEN : Color := Color.rgb8 143 188 143
def Color.DARK_SLATE_BLUE : Color := Color.rgb8 72 61 139
def Color.DARK_SLATE_GRAY : Color := Color.rgb8 47 79 79
def Color.DARK_TURQUOISE : Color := Color.rgb8 0 206 209
def Color.DARK_VIOLET : Color := Color.rgb8 148 0 211
def Color.DEEP_PINK : Color := Color.rgb8 255 20 147
def Color.DEEP_SKY_BLUE : Color := Color.rgb8 0 191 255
def Color.DIM_GRAY : Color := Color.rgb8 105 105 105
def Color.DODGER_BLUE : Color := Color.rgb8 30 144 255
def Color.FIREBRICK : Color := Color.rgb8 178 34 34
def Color.FLORAL_WHITE : Color := Color.rgb8 255 250 240
def Color.FOREST_GREEN : Color := Color.rgb8 34 139 34
def Color.FUCHSIA : Color := Color.rgb8 255 0 255
def Color.GAINSBORO : Color := Color.rgb8 220 220 220
def Color.GHOST_WHITE : Color := Color.rgb8 248 248 255
def Color.GOLD : Color := Color.rgb8 255 215 0
def Color.GOLDENROD : Color := Color.rgb8 218 165 32
def Color.GRAY : Color := Color.rgb8 128 128 128
def Color.GREEN : Color := Color.rgb8 0 128 0
def Color.GREEN_YELLOW : Color := Color.rgb8 173 255 47
def Color.HONEYDEW : Color := Color.rgb8 240 255 240
def Color.HOT_PINK : Color := Color.rgb8 255 105 180
def Color.INDIAN_RED : Color := Color.rgb8 205 92 92
def Color.INDIGO : Color := Color.rgb8 75 0 130
def Color.IVORY : Color := Color.rgb8 255 255 240
def Color.KHAKI : Color := Color.rgb8 240 230 140
def Color.LAVENDER : Color := Color.rgb8 230 230 250
def Color.LAVENDER_BLUSH : Color := Color.rgb8 255 240 245
def Color.LAWN_GREEN : Color := Color.rgb8 124 252 0
def Color.LEMON_CHIFFON : Color := Color.rgb8 255 250 205
def Color.LIGHT_BLUE : Color := Color.rgb8 173 216 230
def Color.LIGHT_CORAL : Color := Color.rgb8 240 128 128
def Color.LIGHT_CYAN : Color := Color.rgb8 224 255 255
def Color.LIGHT_GOLDENROD_YELLOW : Color := Color.rgb8 250 250 210
def Color.LIGHT_GRAY : Color := Color.rgb8 211 211 211
def Color.LIGHT_GREEN : Color := Color.rgb8 144 238 144
def Color.LIGHT_PINK : Color := Color.rgb8 255 182 193
def Color.LIGHT_SALMON : Color := Color.rgb8 255 160 122
def Color.LIGHT_SEA_GREEN : Color := Color.rgb8 32 178 170
def Color.LIGHT_SKY_BLUE : Color := Color.rgb8 135 206 250
def Color.LIGHT_SLATE_GRAY : Color := Color.rgb8 119 136 153
def Color.LIGHT_STEEL_BLUE : Color := Color.rgb8 176 196 222
def Color.LIGHT_YELLOW : Color := Color.rgb8 255 255 224
def Color.LIME : Color := Color.rgb8 0 255 0
def Color.LIME_GREEN : Color := Color.rgb8 50 205 50
def Color.LINEN : Color := Color.rgb8 250 240 230
def Color.MAGENTA : Color := Color.rgb8 255 0 255
def Color.MAROON : Color := Color.rgb8 128 0 0
def Color.MEDIUM_AQUAMARINE : Color := Color.rgb8 102 205 170
def Color.MEDIUM_BLUE : Color := Color.rgb8 0 0 205
def Color.MEDIUM_ORCHID : Color := Color.rgb8 186 85 211
def Color.MEDIUM_PURPLE : Color := Color.rgb8 147 112 219
def Color.MEDIUM_SEA_GREEN : Color := Color.rgb8 60 179 113
def Color.MEDIUM_SLATE_BLUE : Color := Color.rgb8 123 104 238
def Color.MEDIUM_SPRING_GREEN : Color := Color.rgb8 0 250 154
def Color.MEDIUM_TURQUOISE : Color := Color.rgb8 72 209 204
def Color.MEDIUM_VIOLET_RED : Color := Color.rgb8 199 21 133
def Color.MIDNIGHT_BLUE : Color := Color.rgb8 25 25 112
def Color.MINT_CREAM : Color := Color.rgb8 245 255 250
def Color.MISTY_ROSE : Color := Color.rgb8 255 228 225
def Color.MOCCASIN : Color := Color.rgb8 255 228 181
def Color.NAVAJO_WHITE : Color := Color.rgb8 255 222 173
def Color.NAVY : Color := Color.rgb8 0 0 128
def Color.OLD_LACE : Color := Color.rgb8 253 245 230
def Color.OLIVE : Color := Color.rgb8 128 128 0
def Color.OLIVE_DRAB : Color := Color.rgb8 107 142 35
def Color.ORANGE : Color := Color.rgb8 255 165 0
def Color.ORANGE_RED : Color := Color.rgb8 255 69 0
def Color.ORCHID : Color := Color.rgb8 218 112 214
def Color.PALE_GOLDENROD : Color := Color.rgb8 238 232 170
def Color.PALE_GREEN : Color := Color.rgb8 152 251 152
def Color.PALE_TURQUOISE : Color := Color.rgb8 175 238 238
def Color.PALE_VIOLET_RED : Color := Color.rgb8 219 112 147
def Color.PAPAYA_WHIP : Color := Color.rgb8 255 239 213
def Color.PEACH_PUFF : Color := Color.rgb8 255 218 185
def Color.PERU : Color := Color.rgb8 205 133 63
def Color.PINK : Color := Color.rgb8 255 192 203
def Color.PLUM : Color := Color.rgb8 221 160 221
def Color.POWDER_BLUE : Color := Color.rgb8 176 224 230
def Color.PURPLE : Color := Color.rgb8 128 0 128
def Color.REBECCA_PURPLE : Color := Color.rgb8 102 51 153
def Color.RED : Color := Color.rgb8 255 0 0
def Color.ROSY_BROWN : Color := Color.rgb8 188 143 143
def Color.ROYAL_BLUE : Color := Color.rgb8 65 105 225
def Color.SADDLE_BROWN : Color := Color.rgb8 139 69 19
def Color.SALMON : Color := Color.rgb8 250 128 114
def Color.SANDY_BROWN : Color := Color.rgb8 244 164 96
def Color.SEA_GREEN : Color := Color.rgb8 46 139 87
def Color.SEASHELL : Color := Color.rgb8 255 245 238
def Color.SIENNA : Color := Color.rgb8 160 82 45
def Color.SILVER : Color := Color.rgb8 192 192 192
def Color.SKY_BLUE : Color := Color.rgb8 135 206 235
def Color.SLATE_BLUE : Color := Color.rgb8 106 90 205
def Color.SLATE_GRAY : Color := Color.rgb8 112 128 144
def Color.SNOW : Color := Color.rgb8 255 250 250
def Color.SPRING_GREEN : Color := Color.rgb8 0 255 127
def Color.STEEL_BLUE : Color := Color.rgb8 70 130 180
def Color.TAN : Color := Color.rgb8 210 180 140
def Color.TEAL : Color := Color.rgb8 0 128 128
def Color.THISTLE : Color := Color.rgb8 216 191 216
def Color.TOMATO : Color := Color.rgb8 255 99 71
def Color.TURQUOISE : Color := Color.rgb8 64 224 208
def Color.VIOLET : Color := Color.rgb8 238 130 238
def Color.WHEAT : Color := Color.rgb8 245 222 179
def Color.WHITE : Color := Color.rgb8 255 255 255
def Color.WHITE_SMOKE : Color := Color.rgb8 245 245 245
def Color.YELLOW : Color := Color.rgb8 255 255 0
def Color.YELLOW_GREEN : Color := Color.rgb8 154 205 50

def Color.TRANSPARENT : Color := { red := f32zero, green := f32zero, blue := f32zero, alpha := f32zero }

/-! ### Color parsing (src/color.rs) -/

/-- `hex_from_ascii_byte`: `Ok`/`Err` collapsed to `Option` (the `Err` payload
is discarded by the only caller). -/
def hex_from_ascii_byte (b : Nat) : Option Nat :=
  if 48 <= b && b <= 57 then some (b - 48)
  else if 65 <= b && b <= 70 then some (b - 65 + 10)
  else if 97 <= b && b <= 102 then some (b - 97 + 10)
  else none

abbrev Hex8 := Nat × Nat × Nat × Nat × Nat × Nat × Nat × Nat

/-- The hex-conversion loop of `get_4bit_hex_channels`: convert the eight
selected ASCII bytes in order, failing at the first non-hex byte. -/
def hex8 (c0 c1 c2 c3 c4 c5 c6 c7 : Nat) : Option Hex8 :=
  match hex_from_ascii_byte c0 with
  | none => none
  | some h0 =>
    match hex_from_ascii_byte c1 with
    | none => none
    | some h1 =>
      match hex_from_ascii_byte c2 with
      | none => none
      | some h2 =>
        match hex_from_ascii_byte c3 with
        | none => none
        | some h3 =>
          match hex_from_ascii_byte c4 with
          | none => none
          | some h4 =>
            match hex_from_ascii_byte c5 with
            | none => none
            | some h5 =>
              match hex_from_ascii_byte c6 with
              | none => none
              | some h6 =>
                match hex_from_ascii_byte c7 with
                | none => none
                | some h7 => some (h0, h1, h2, h3, h4, h5, h6, h7)

/-- `get_4bit_hex_channels` on the UTF-8 bytes of the input.  The Rust `match`
tries, in order: `[#,r,g,b] | [r,g,b]`, `[#,r,g,b,a] | [r,g,b,a]`,
`[#,r0..b1] | [r0..b1]`, `[#,r0..a1] | [r0..a1]`; arm selection therefore
depends only on the byte length and, for lengths 4, 5, 7 and 9, on whether the
first byte is `#` (35).  That first-match case split is spelled out below,
followed by the in-place hex conversion of the selected bytes
(`b'f' = 102` fills in a missing alpha). -/
def get_4bit_hex_channels (l : List Nat) : Option Hex8 :=
  match l with
  | [r, g, b] => hex8 r r g g b b 102 102
  | [h, r, g, b] =>
    if h = 35 then hex8 r r g g b b 102 102 else hex8 h h r r g g b b
  | [h, r, g, b, a] => if h = 35 then hex8 r r g g b b a a else none
  | [r0, r1, g0, g1, b0, b1] => hex8 r0 r1 g0 g1 b0 b1 102 102
  | [h, r0, r1, g0, g1, b0, b1] => if h = 35 then hex8 r0 r1 g0 g1 b0 b1 102 102 else none
  | [r0, r1, g0, g1, b0, b1, a0, a1] => hex8 r0 r1 g0 g1 b0 b1 a0 a1
  | [h, r0, r1, g0, g1, b0, b1, a0, a1] =>
    if h = 35 then hex8 r0 r1 g0 g1 b0 b1 a0 a1 else none
  | _ => none

/-- `color_from_4bit_hex`: `c0 << 4 | c1` per channel. -/
def color_from_4bit_hex : Hex8 → Color
  | (r0, r1, g0, g1, b0, b1, a0, a1) =>
    Color.rgba8 (r0 <<< 4 ||| r1) (g0 <<< 4 ||| g1) (b0 <<< 4 ||| b1) (a0 <<< 4 ||| a1)

/-- Rust `char::is_whitespace`: the Unicode `White_Space` property. -/
def rustIsWhitespace (c : Char) : Bool :=
  [9, 10, 11, 12, 13, 32, 0x85, 0xA0, 0x1680, 0x2000, 0x2001, 0x2002, 0x2003, 0x2004,
    0x2005, 0x2006, 0x2007, 0x2008, 0x2009, 0x200A, 0x2028, 0x2029, 0x202F, 0x205F,
    0x3000].contains c.toNat

def trimLeft (l : List Char) : List Char := l.dropWhile rustIsWhitespace

def trimRight (l : List Char) : List Char := (l.reverse.dropWhile rustIsWhitespace).reverse

/-- Rust `str::trim`: drop leading and trailing whitespace. -/
def rustTrim (l : List Char) : List Char := trimRight (trimLeft l)

/-- Rust `str::strip_prefix(\'#\')` on the character sequence. -/
def stripHash : List Char → Option (List Char)
  | [] => none
  | c :: rest => if c = '#' then some rest else none

/-- UTF-8 encoding of one character (`str::as_bytes` works on these bytes). -/
def utf8Bytes (c : Char) : List Nat :=
  if c.toNat < 0x80 then [c.toNat]
  else if c.toNat < 0x800 then
    [0xC0 ||| (c.toNat >>> 6), 0x80 ||| (c.toNat &&& 0x3F)]
  else if c.toNat < 0x10000 then
    [0xE0 ||| (c.toNat >>> 12), 0x80 ||| ((c.toNat >>> 6) &&& 0x3F),
      0x80 ||| (c.toNat &&& 0x3F)]
  else
    [0xF0 ||| (c.toNat >>> 18), 0x80 ||| ((c.toNat >>> 12) &&& 0x3F),
      0x80 ||| ((c.toNat >>> 6) &&& 0x3F), 0x80 ||| (c.toNat &&& 0x3F)]

def strBytes (l : List Char) : List Nat := (l.map utf8Bytes).flatten

/-- The named-color table of `parse_color` (match arms in source order). -/
def namedColors : List (String × Color) := [
  ("aliceblue", Color.ALICE_BLUE),
  ("antiquewhite", Color.ANTIQUE_WHITE),
  ("aqua", Color.AQUA),
  ("aquamarine", Color.AQUAMARINE),
  ("azure", Color.AZURE),
  ("beige", Color.BEIGE),
  ("bisque", Color.BISQUE),
  ("black", Color.BLACK),
  ("blanchedalmond", Color.BLANCHED_ALMOND),
  ("blue", Color.BLUE),
  ("blueviolet", Color.BLUE_VIOLET),
  ("brown", Color.BROWN),
  ("burlywood", Color.BURLYWOOD),
  ("cadetblue", Color.CADET_BLUE),
  ("chartreuse", Color.CHARTREUSE),
  ("chocolate", Color.CHOCOLATE),
  ("coral", Color.CORAL),
  ("cornflowerblue", Color.CORNFLOWER_BLUE),
  ("cornsilk", Color.CORNSILK),
  ("crimson", Color.CRIMSON),
  ("cyan", Color.CYAN),
  ("darkblue", Color.DARK_BLUE),
  ("darkcyan", Color.DARK_CYAN),
  ("darkgoldenrod", Color.DARK_GOLDENROD),
  ("darkgray", Color.DARK_GRAY),
  ("darkgreen", Color.DARK_GREEN),
  ("darkkhaki", Color.DARK_KHAKI),
  ("darkmagenta", Color.DARK_MAGENTA),
  ("darkolivegreen", Color.DARK_OLIVE_GREEN),
  ("darkorange", Color.DARK_ORANGE),
  ("darkorchid", Color.DARK_ORCHID),
  ("darkred", Color.DARK_RED),
  ("darksalmon", Color.DARK_SALMON),
  ("darkseagreen", Color.DARK_SEA_GREEN),
  ("darkslateblue", Color.DARK_SLATE_BLUE),
  ("darkslategray", Color.DARK_SLATE_GRAY),
  ("darkturquoise", Color.DARK_TURQUOISE),
  ("darkviolet", Color.DARK_VIOLET),
  ("deeppink", Color.DEEP_PINK),
  ("deepskyblue", Color.DEEP_SKY_BLUE),
  ("dimgray", Color.DIM_GRAY),
  ("dodgerblue", Color.DODGER_BLUE),
  ("firebrick", Color.FIREBRICK),
  ("floralwhite", Color.FLORAL_WHITE),
  ("forestgreen", Color.FOREST_GREEN),
  ("fuchsia", Color.FUCHSIA),
  ("gainsboro", Color.GAINSBORO),
  ("ghostwhite", Color.GHOST_WHITE),
  ("gold", Color.GOLD),
  ("goldenrod", Color.GOLDENROD),
  ("gray", Color.GRAY),
  ("green", Color.GREEN),
  ("greenyellow", Color.GREEN_YELLOW),
  ("honeydew", Color.HONEYDEW),
  ("hotpink", Color.HOT_PINK),
  ("indianred", Color.INDIAN_RED),
  ("indigo", Color.INDIGO),
  ("ivory", Color.IVORY),
  ("khaki", Color.KHAKI),
  ("lavender", Color.LAVENDER),
  ("lavenderblush", Color.LAVENDER_BLUSH),
  ("lawngreen", Color.LAWN_GREEN),
  ("lemonchiffon", Color.LEMON_CHIFFON),
  ("lightblue", Color.LIGHT_BLUE),
  ("lightcoral", Color.LIGHT_CORAL),
  ("lightcyan", Color.LIGHT_CYAN),
  ("lightgoldenrodyellow", Color.LIGHT_GOLDENROD_YELLOW),
  ("lightgray", Color.LIGHT_GRAY),
  ("lightgreen", Color.LIGHT_GREEN),
  ("lightpink", Color.LIGHT_PINK),
  ("lightsalmon", Color.LIGHT_SALMON),
  ("lightseagreen", Color.LIGHT_SEA_GREEN),
  ("lightskyblue", Color.LIGHT_SKY_BLUE),
  ("lightslategray", Color.LIGHT_SLATE_GRAY),
  ("lightsteelblue", Color.LIGHT_STEEL_BLUE),
  ("lightyellow", Color.LIGHT_YELLOW),
  ("lime", Color.LIME),
  ("limegreen", Color.LIME_GREEN),
  ("linen", Color.LINEN),
  ("magenta", Color.MAGENTA),
  ("maroon", Color.MAROON),
  ("mediumaquamarine", Color.MEDIUM_AQUAMARINE),
  ("mediumblue", Color.MEDIUM_BLUE),
  ("mediumorchid", Color.MEDIUM_ORCHID),
  ("mediumpurple", Color.MEDIUM_PURPLE),
  ("mediumseagreen", Color.MEDIUM_SEA_GREEN),
  ("mediumslateblue", Color.MEDIUM_SLATE_BLUE),
  ("mediumspringgreen", Color.MEDIUM_SPRING_GREEN),
  ("mediumturquoise", Color.MEDIUM_TURQUOISE),
  ("mediumvioletred", Color.MEDIUM_VIOLET_RED),
  ("midnightblue", Color.MIDNIGHT_BLUE),
  ("mintcream", Color.MINT_CREAM),
  ("mistyrose", Color.MISTY_ROSE),
  ("moccasin", Color.MOCCASIN),
  ("navajowhite", Color.NAVAJO_WHITE),
  ("navy", Color.NAVY),
  ("oldlace", Color.OLD_LACE),
  ("olive", Color.OLIVE),
  ("olivedrab", Color.OLIVE_DRAB),
  ("orange", Color.ORANGE),
  ("orangered", Color.ORANGE_RED),
  ("orchid", Color.ORCHID),
  ("palegoldenrod", Color.PALE_GOLDENROD),
  ("palegreen", Color.PALE_GREEN),
  ("paleturquoise", Color.PALE_TURQUOISE),
  ("palevioletred", Color.PALE_VIOLET_RED),
  ("papayawhip", Color.PAPAYA_WHIP),
  ("peachpuff", Color.PEACH_PUFF),
  ("peru", Color.PERU),
  ("pink", Color.PINK),
  ("plum", Color.PLUM),
  ("powderblue", Color.POWDER_BLUE),
  ("purple", Color.PURPLE),
  ("rebeccapurple", Color.REBECCA_PURPLE),
  ("red", Color.RED),
  ("rosybrown", Color.ROSY_BROWN),
  ("royalblue", Color.ROYAL_BLUE),
  ("saddlebrown", Color.SADDLE_BROWN),
  ("salmon", Color.SALMON),
  ("sandybrown", Color.SANDY_BROWN),
  ("seagreen", Color.SEA_GREEN),
  ("seashell", Color.SEASHELL),
  ("sienna", Color.SIENNA),
  ("silver", Color.SILVER),
  ("skyblue", Color.SKY_BLUE),
  ("slateblue", Color.SLATE_BLUE),
  ("slategray", Color.SLATE_GRAY),
  ("snow", Color.SNOW),
  ("springgreen", Color.SPRING_GREEN),
  ("steelblue", Color.STEEL_BLUE),
  ("tan", Color.TAN),
  ("teal", Color.TEAL),
  ("thistle", Color.THISTLE),
  ("tomato", Color.TOMATO),
  ("transparent", Color.TRANSPARENT),
  ("turquoise", Color.TURQUOISE),
  ("violet", Color.VIOLET),
  ("wheat", Color.WHEAT),
  ("white", Color.WHITE),
  ("whitesmoke", Color.WHITE_SMOKE),
  ("yellow", Color.YELLOW),
  ("yellowgreen", Color.YELLOW_GREEN)
]

/-- The body of `parse_color` after the initial `s.trim()`. -/
def parseTrimmed (t : List Char) : Option Color :=
  match stripHash t with
  | some stripped => (get_4bit_hex_channels (strBytes stripped)).map color_from_4bit_hex
  | none => (namedColors.find? (fun p => p.1.data == t)).map (fun p => p.2)

/-- `parse_color` of src/color.rs. -/
def parse_color (s : List Char) : Option Color := parseTrimmed (rustTrim s)

/-- `Color::parse`. -/
def Color.parse (s : String) : Option Color := parse_color s.data

/-! ### The gradient model (src/gradient.rs) -/

/-- `ColorStop`: normalized offset plus color. -/
structure ColorStop where
  offset : F32
  color : Color
deriving DecidableEq

/-- The `PartialEq` impl of `ColorStop` (src/gradient.rs lines 42-49): the
offset is compared by bit pattern, the color by `Color`'s derived `PartialEq`
(IEEE `==` per channel). -/
def ColorStop.beq (a b : ColorStop) : Bool :=
  (a.offset.toBits == b.offset.toBits) && Color.beq a.color b.color

/-- The `Hash` impl of `ColorStop` (src/gradient.rs lines 28-40) feeds exactly
these words, in this order, to the hasher; two stops hash identically for
every hasher if and only if these sequences are equal. -/
def ColorStop.hashBits (s : ColorStop) : List Nat :=
  [s.offset.toBits, s.color.red.toBits, s.color.green.toBits, s.color.blue.toBits,
    s.color.alpha.toBits]

/-- `ColorStop::with_alpha_factor`. -/
def ColorStop.with_alpha_factor (s : ColorStop) (alpha : F32) : ColorStop :=
  { offset := s.offset
    color := { s.color with alpha := f32Mul s.color.alpha alpha } }

/-- Modelled from the spec: 2D point of the external `kurbo` crate (not part
of this repository).  Gradient constructors only store points, so the
coordinate representation is opaque to every claim; exact rationals stand in
for the `f64` coordinates. -/
structure Point where
  x : ℚ
  y : ℚ
deriving DecidableEq

/-- `Extend` of src/brush.rs; `Pad` is the `Default`. -/
inductive Extend where
  | Pad
  | Repeat
  | Reflect
deriving DecidableEq

/-- `GradientKind` (the Rust field `end` is spelled `end_`). -/
inductive GradientKind where
  | Linear (start : Point) (end_ : Point)
  | Radial (start_center : Point) (start_radius : F32) (end_center : Point)
      (end_radius : F32)
  | Sweep (center : Point) (start_angle : F32) (end_angle : F32)
deriving DecidableEq

/-- `Gradient`. -/
structure Gradient where
  kind : GradientKind
  extend : Extend
  stops : List ColorStop
deriving DecidableEq

/-- `Gradient::new_linear`. -/
def Gradient.new_linear (start end_ : Point) : Gradient :=
  { kind := GradientKind.Linear start end_
    extend := Extend.Pad
    stops := [] }

/-- `Gradient::new_radial`. -/
def Gradient.new_radial (center : Point) (radius : F32) : Gradient :=
  { kind := GradientKind.Radial center f32zero center radius
    extend := Extend.Pad
    stops := [] }

/-- `Gradient::new_two_point_radial`. -/
def Gradient.new_two_point_radial (start_center : Point) (start_radius : F32)
    (end_center : Point) (end_radius : F32) : Gradient :=
  { kind := GradientKind.Radial start_center start_radius end_center end_radius
    extend := Extend.Pad
    stops := [] }

/-- `Gradient::new_sweep`. -/
def Gradient.new_sweep (center : Point) (start_angle end_angle : F32) : Gradient :=
  { kind := GradientKind.Sweep center start_angle end_angle
    extend := Extend.Pad
    stops := [] }

/-- `Gradient::with_extend`. -/
def Gradient.with_extend (g : Gradient) (mode : Extend) : Gradient :=
  { g with extend := mode }

/-- `Gradient::with_stops` fed by the `ColorStopsSource` impl for slices of
stop-convertible values: the stop collection is cleared and the given stops
are copied verbatim, in order. -/
def Gradient.with_stops (g : Gradient) (stops : List ColorStop) : Gradient :=
  { g with stops := stops }

/-- The `ColorStopsSource` impl for `&[Color]` (src/gradient.rs lines
243-253): one stop per color, in order, with offset `i as f32 / denom` where
`denom = (len - 1).max(1) as f32`; an empty slice contributes nothing. -/
def colorStopsFromColors (cs : List Color) : List ColorStop :=
  if cs.isEmpty then []
  else
    (cs.enum).map fun ic =>
      { offset := f32Div (natToF32 ic.1) (natToF32 (max (cs.length - 1) 1))
        color := ic.2 }

/-- `Gradient::with_stops` fed by a bare color sequence. -/
def Gradient.with_stops_colors (g : Gradient) (cs : List Color) : Gradient :=
  { g with stops := colorStopsFromColors cs }

/-! ### The brush model (src/brush.rs) -/

/-- Modelled from the spec: the image resource (src module `image`, not
included in the sources).  The spec treats it as an opaque pixel buffer plus
parameters, exposing an alpha-scaling operation "with the same contract as
ColorModel's `with_alpha_factor`"; the opaque part is `payload` and the
scaled alpha channel is `alpha`. -/
structure Image where
  payload : Nat
  alpha : F32
deriving DecidableEq

/-- Modelled from the spec: `Image::with_alpha_factor` multiplies the image's
alpha by the factor and changes nothing else. -/
def Image.with_alpha_factor (im : Image) (alpha : F32) : Image :=
  { im with alpha := f32Mul im.alpha alpha }

/-- `Brush`. -/
inductive Brush where
  | Solid (color : Color)
  | Gradient (gradient : Gradient)
  | Image (image : Image)
deriving DecidableEq

/-- `Brush::with_alpha_factor` (src/brush.rs lines 51-70): `1.0` is compared
with IEEE `==`; otherwise dispatch per variant. -/
def Brush.with_alpha_factor (b : Brush) (alpha : F32) : Brush :=
  if f32Beq alpha f32one then b
  else
    match b with
    | Brush.Solid color =>
      Brush.Solid { color with alpha := f32Mul color.alpha alpha }
    | Brush.Gradient gradient =>
      Brush.Gradient
        { gradient with stops := gradient.stops.map fun s => s.with_alpha_factor alpha }
    | Brush.Image image => Brush.Image (image.with_alpha_factor alpha)

/-! ### Claim theorems -/

def stopPlusZeroRed : ColorStop :=
  { offset := f32zero
    color := { red := f32zero, green := f32zero, blue := f32zero, alpha := f32one } }

def stopMinusZeroRed : ColorStop :=
  { offset := f32zero
    color := { red := f32negZero, green := f32zero, blue := f32zero, alpha := f32one } }

def stopNaNRed : ColorStop :=
  { offset := f32zero
    color := { red := f32nan, green := f32zero, blue := f32zero, alpha := f32one } }

/-- C1: evaluation of the `ColorStop` equality and hash implementations at the
inputs where the code diverges from the claim.  Two stops whose colors differ
only in the sign of a zero red channel compare equal under the code's
`PartialEq` (which compares the color with IEEE `==`, not bit patterns) even
though the red bit patterns differ, and consequently hash differently while
comparing equal; and a stop with a NaN red channel does not compare equal to
itself even though all bit patterns (hence hashes) agree.  This contradicts
the claimed bit-pattern equality contract and breaks the `Eq`/`Hash`
consistency the code's own comment says the override is for. -/
theorem claim1_code_eval :
    ColorStop.beq stopPlusZeroRed stopMinusZeroRed = true ∧
    stopPlusZeroRed.color.red.toBits ≠ stopMinusZeroRed.color.red.toBits ∧
    ColorStop.hashBits stopPlusZeroRed ≠ ColorStop.hashBits stopMinusZeroRed ∧
    ColorStop.beq stopNaNRed stopNaNRed = false ∧
    ColorStop.hashBits stopNaNRed = ColorStop.hashBits stopNaNRed := by
  refine ⟨by decide, by decide, by decide, by decide, rfl⟩

/-- C3: with an alpha factor that is not IEEE-equal to `1.0`,
`Brush::with_alpha_factor` dispatches per variant: a Solid brush gets its
color's alpha multiplied by the factor; a Gradient brush gets every stop
rewritten by `ColorStop::with_alpha_factor`, preserving the number of stops,
every offset and the stop order while multiplying every stop color's alpha;
an Image brush delegates to the image's own alpha-scaling operation. -/
theorem claim3_dispatch (k : F32) (c : Color) (g : Gradient) (im : Image)
    (h : f32Beq k f32one = false) :
    Brush.with_alpha_factor (Brush.Solid c) k
        = Brush.Solid { c with alpha := f32Mul c.alpha k } ∧
    Brush.with_alpha_factor (Brush.Gradient g) k
        = Brush.Gradient { g with stops := g.stops.map fun s => s.with_alpha_factor k } ∧
    (g.stops.map fun s => s.with_alpha_factor k).length = g.stops.length ∧
    (g.stops.map fun s => s.with_alpha_factor k).map ColorStop.offset
        = g.stops.map ColorStop.offset ∧
    (g.stops.map fun s => s.with_alpha_factor k).map ColorStop.color
        = g.stops.map (fun s => { s.color with alpha := f32Mul s.color.alpha k }) ∧
    Brush.with_alpha_factor (Brush.Image im) k = Brush.Image (im.with_alpha_factor k) := by
  refine ⟨?_, ?_, ?_, ?_, ?_, ?_⟩
  · unfold Brush.with_alpha_factor
    rw [h]
    rfl
  · unfold Brush.with_alpha_factor
    rw [h]
    rfl
  · simp
  · rw [List.map_map]
    apply List.map_congr_left
    intro s hs
    rfl
  · rw [List.map_map]
    apply List.map_congr_left
    intro s hs
    rfl
  · unfold Brush.with_alpha_factor
    rw [h]
    rfl

def colorW : Color := { red := f32one, green := f32half, blue := f32zero, alpha := f32one }

def colorW2 : Color := { red := f32zero, green := f32one, blue := f32two, alpha := f32half }

def gradientW : Gradient :=
  { kind := GradientKind.Linear ⟨0, 0⟩ ⟨1, 0⟩
    extend := Extend.Pad
    stops := [{ offset := f32zero, color := colorW }, { offset := f32one, color := colorW2 }] }

def imageW : Image := { payload := 7, alpha := f32one }

/-- Witness for C3 at the concrete factor `0.5`, a two-stop gradient with
offsets `0.0` and `1.0`, and a concrete solid color and image. -/
theorem claim3_dispatch_witness :
    f32Beq f32half f32one = false ∧
    (Brush.with_alpha_factor (Brush.Solid colorW) f32half
        = Brush.Solid { colorW with alpha := f32Mul colorW.alpha f32half } ∧
    Brush.with_alpha_factor (Brush.Gradient gradientW) f32half
        = Brush.Gradient
            { gradientW with stops := gradientW.stops.map fun s => s.with_alpha_factor f32half } ∧
    (gradientW.stops.map fun s => s.with_alpha_factor f32half).length
        = gradientW.stops.length ∧
    (gradientW.stops.map fun s => s.with_alpha_factor f32half).map ColorStop.offset
        = gradientW.stops.map ColorStop.offset ∧
    (gradientW.stops.map fun s => s.with_alpha_factor f32half).map ColorStop.color
        = gradientW.stops.map
            (fun s => { s.color with alpha := f32Mul s.color.alpha f32half }) ∧
    Brush.with_alpha_factor (Brush.Image imageW) f32half
        = Brush.Image (imageW.with_alpha_factor f32half)) :=
  ⟨by decide, claim3_dispatch f32half colorW gradientW imageW (by decide)⟩

/-- C4 counterexample: the claim "`with_alpha_factor(x, 1.0) == x` for every
Color" fails at a color whose alpha channel is NaN, because the code's `==`
on colors is IEEE equality per channel and NaN is not equal to itself. -/
theorem claim4_counterexample :
    Color.beq
        (Color.with_alpha_factor
          { red := f32one, green := f32one, blue := f32one, alpha := f32nan } f32one)
        { red := f32one, green := f32one, blue := f32one, alpha := f32nan } = false := by
  decide

/-- C4 (amended): an alpha factor of exactly `1.0` is the identity up to the
code's own equality wherever that equality can hold: `Brush::with_alpha_factor`
returns its input unchanged (structurally, for every brush, via the `== 1.0`
fast path), and `Color::with_alpha_factor` / `ColorStop::with_alpha_factor`
return values that compare `==` to the input whenever the color channels are
not NaN (a NaN channel never compares equal to itself, so the unrestricted
claim fails there). -/
theorem claim4_alpha_one_identity (c : Color) (s : ColorStop) (b : Brush)
    (hc : c.red.isNaN = false ∧ c.green.isNaN = false ∧ c.blue.isNaN = false ∧
      c.alpha.isNaN = false)
    (hs : s.color.red.isNaN = false ∧ s.color.green.isNaN = false ∧
      s.color.blue.isNaN = false ∧ s.color.alpha.isNaN = false) :
    Color.beq (c.with_alpha_factor f32one) c = true ∧
    ColorStop.beq (s.with_alpha_factor f32one) s = true ∧
    b.with_alpha_factor f32one = b := by
  obtain ⟨hr, hg, hb, ha⟩ := hc
  obtain ⟨sr, sg, sb, sa⟩ := hs
  refine ⟨?_, ?_, ?_⟩
  · unfold Color.with_alpha_factor
    rw [f32Mul_one c.alpha ha]
    simp [Color.beq, f32Beq_refl c.red hr, f32Beq_refl c.green hg, f32Beq_refl c.blue hb,
      f32Beq_refl c.alpha ha]
  · unfold ColorStop.with_alpha_factor
    rw [f32Mul_one s.color.alpha sa]
    simp [ColorStop.beq, Color.beq, f32Beq_refl s.color.red sr, f32Beq_refl s.color.green sg,
      f32Beq_refl s.color.blue sb, f32Beq_refl s.color.alpha sa]
  · unfold Brush.with_alpha_factor
    rw [show f32Beq f32one f32one = true from by decide]
    rfl

def stopW : ColorStop := { offset := f32half, color := colorW }

/-- Witness for C4 at a concrete color, stop and brush. -/
theorem claim4_alpha_one_identity_witness :
    ((colorW.red.isNaN = false ∧ colorW.green.isNaN = false ∧ colorW.blue.isNaN = false ∧
        colorW.alpha.isNaN = false) ∧
      (stopW.color.red.isNaN = false ∧ stopW.color.green.isNaN = false ∧
        stopW.color.blue.isNaN = false ∧ stopW.color.alpha.isNaN = false)) ∧
    (Color.beq (colorW.with_alpha_factor f32one) colorW = true ∧
      ColorStop.beq (stopW.with_alpha_factor f32one) stopW = true ∧
      (Brush.Gradient gradientW).with_alpha_factor f32one = Brush.Gradient gradientW) :=
  ⟨⟨by decide, by decide⟩,
    claim4_alpha_one_identity colorW stopW (Brush.Gradient gradientW) (by decide) (by decide)⟩

/-- C7: parsing is total and fallible only through the `Option` result: every
input string, including the empty string, whitespace-only strings, and
strings with non-ASCII characters, yields either a complete color or `none`
(the embedding is a total function, so no panic path exists). -/
theorem claim7_parse_total :
    (∀ s : String, Color.parse s = none ∨ ∃ c : Color, Color.parse s = some c) ∧
    Color.parse "" = none ∧
    Color.parse "   " = none ∧
    Color.parse "münchen" = none := by
  refine ⟨?_, rfl, rfl, rfl⟩
  intro s
  cases h : Color.parse s with
  | none => exact Or.inl rfl
  | some c => exact Or.inr ⟨c, rfl⟩

/-- C8: `Gradient::new_radial(center, radius)` constructs exactly the gradient
`Gradient::new_two_point_radial(center, 0.0, center, radius)`: a Radial kind
with both centers equal to the given center, start radius `0.0`, end radius
the given radius, Pad extend and empty stops. -/
theorem claim8_new_radial (center : Point) (radius : F32) :
    Gradient.new_radial center radius
        = Gradient.new_two_point_radial center f32zero center radius ∧
    (Gradient.new_radial center radius).kind
        = GradientKind.Radial center f32zero center radius ∧
    (Gradient.new_radial center radius).extend = Extend.Pad ∧
    (Gradient.new_radial center radius).stops = [] :=
  ⟨rfl, rfl, rfl, rfl⟩

/-- C5: building a gradient's stops from a bare sequence of `n` colors
synthesizes, in input order, one stop per color with offset
`i as f32 / (max (n-1) 1) as f32`; three colors yield offsets
`[0.0, 0.5, 1.0]`, a single color yields one stop at offset `0.0`, and the
empty sequence yields empty stops (the division is guarded against zero). -/
theorem claim5_stop_synthesis (g : Gradient) (cs : List Color) (c c0 c1 c2 : Color)
    (i : Nat) (hi : i < cs.length) :
    (g.with_stops_colors cs).stops = colorStopsFromColors cs ∧
    (colorStopsFromColors cs).length = cs.length ∧
    (colorStopsFromColors cs).getD i { offset := f32zero, color := c }
        = { offset := f32Div (natToF32 i) (natToF32 (max (cs.length - 1) 1))
            color := cs.getD i c } ∧
    colorStopsFromColors [] = [] ∧
    colorStopsFromColors [c] = [{ offset := f32zero, color := c }] ∧
    colorStopsFromColors [c0, c1, c2]
        = [{ offset := f32zero, color := c0 }, { offset := f32half, color := c1 },
            { offset := f32one, color := c2 }] := by
  have hne : cs.isEmpty = false := by
    cases cs with
    | nil => simp at hi
    | cons a t => rfl
  have hdef : colorStopsFromColors cs
      = (cs.enum).map fun ic =>
          { offset := f32Div (natToF32 ic.1) (natToF32 (max (cs.length - 1) 1))
            color := ic.2 } := by
    unfold colorStopsFromColors
    rw [hne]
    simp
  have hlen : (colorStopsFromColors cs).length = cs.length := by
    rw [hdef]
    simp [List.enum_length]
  refine ⟨rfl, hlen, ?_, rfl, ?_, ?_⟩
  · have hi2 : i < (colorStopsFromColors cs).length := by rw [hlen]; exact hi
    rw [List.getD_eq_getElem _ _ hi2, List.getD_eq_getElem _ _ hi]
    have hi3 : i < (cs.enum).length := by simp [List.enum_length, hi]
    simp only [hdef, List.getElem_map, List.getElem_enum]
  · have h1 : colorStopsFromColors [c]
        = [{ offset := f32Div (natToF32 0) (natToF32 1), color := c }] := rfl
    rw [h1, natToF32_zero, natToF32_one, f32Div_zero_one]
  · have h1 : colorStopsFromColors [c0, c1, c2]
        = [{ offset := f32Div (natToF32 0) (natToF32 2), color := c0 },
            { offset := f32Div (natToF32 1) (natToF32 2), color := c1 },
            { offset := f32Div (natToF32 2) (natToF32 2), color := c2 }] := rfl
    rw [h1, natToF32_zero, natToF32_one, natToF32_two, f32Div_zero_two, f32Div_one_two,
      f32Div_two_two]

/-- Witness for C5 at a three-color list and index 1. -/
theorem claim5_stop_synthesis_witness :
    1 < ([colorW, colorW2, Color.RED] : List Color).length ∧
    ((Gradient.with_stops_colors gradientW [colorW, colorW2, Color.RED]).stops
        = colorStopsFromColors [colorW, colorW2, Color.RED] ∧
      (colorStopsFromColors [colorW, colorW2, Color.RED]).length
        = ([colorW, colorW2, Color.RED] : List Color).length ∧
      (colorStopsFromColors [colorW, colorW2, Color.RED]).getD 1
          { offset := f32zero, color := Color.BLACK }
        = { offset := f32Div (natToF32 1)
              (natToF32 (max (([colorW, colorW2, Color.RED] : List Color).length - 1) 1))
            color := ([colorW, colorW2, Color.RED] : List Color).getD 1 Color.BLACK } ∧
      colorStopsFromColors [] = [] ∧
      colorStopsFromColors [Color.BLACK] = [{ offset := f32zero, color := Color.BLACK }] ∧
      colorStopsFromColors [colorW, colorW2, Color.RED]
        = [{ offset := f32zero, color := colorW }, { offset := f32half, color := colorW2 },
            { offset := f32one, color := Color.RED }]) :=
  ⟨by norm_num,
    claim5_stop_synthesis gradientW [colorW, colorW2, Color.RED] Color.BLACK colorW colorW2
      Color.RED 1 (by norm_num)⟩

/-- The scalar lerp hits its left endpoint at `t = 0.0` whenever `a` is not
NaN and `b` is finite. -/
theorem lerpF32_zero (x y : F32) (hx : x.isNaN = false) (hy : y.isFinite = true) :
    f32Beq (lerpF32 x y f32zero) x = true := by
  unfold lerpF32
  rw [f32Sub_one_zero, f32Mul_one x hx, f32Mul_zeroR y f32zero rfl hy]
  exact f32Add_zeroR_beq x _ rfl hx

/-- The scalar lerp hits its right endpoint at `t = 1.0` whenever `a` is
finite and `b` is not NaN. -/
theorem lerpF32_one (x y : F32) (hx : x.isFinite = true) (hy : y.isNaN = false) :
    f32Beq (lerpF32 x y f32one) y = true := by
  unfold lerpF32
  rw [f32Sub_one_one, f32Mul_zeroR x f32zero rfl hx, f32Mul_one y hy]
  exact f32Add_zeroL_beq y _ rfl hy

/-- C6 counterexample: the unrestricted claim `lerp(a, b, 1) == b` (per
channel, for any two colors) fails when a channel of `b` is NaN: the computed
channel `a*(1-1) + b*1` is NaN, and NaN is not `==` to itself. -/
theorem claim6_counterexample :
    Color.beq
        (Color.lerp { red := f32zero, green := f32zero, blue := f32zero, alpha := f32zero }
          { red := f32nan, green := f32zero, blue := f32zero, alpha := f32zero } f32one)
        { red := f32nan, green := f32zero, blue := f32zero, alpha := f32zero } = false := by
  unfold Color.lerp lerpF32
  rw [f32Sub_one_one]
  decide

/-- C6 (amended): linear interpolation hits its endpoints exactly under the
code's `==` on every channel — `lerp(a,b,0) == a` and `lerp(a,b,1) == b` —
whenever every channel of `a` and of `b` is finite (neither NaN nor
infinite); with a NaN or infinite channel the computed endpoint channel can
be NaN, which is never `==`-equal. -/
theorem claim6_lerp_endpoints (a b : Color)
    (ha : a.red.isFinite = true ∧ a.green.isFinite = true ∧ a.blue.isFinite = true ∧
      a.alpha.isFinite = true)
    (hb : b.red.isFinite = true ∧ b.green.isFinite = true ∧ b.blue.isFinite = true ∧
      b.alpha.isFinite = true) :
    Color.beq (Color.lerp a b f32zero) a = true ∧
    Color.beq (Color.lerp a b f32one) b = true := by
  obtain ⟨har, hag, hab, haa⟩ := ha
  obtain ⟨hbr, hbg, hbb, hba⟩ := hb
  constructor
  · unfold Color.lerp
    simp [Color.beq,
      lerpF32_zero a.red b.red (isNaN_false_of_finite _ har) hbr,
      lerpF32_zero a.green b.green (isNaN_false_of_finite _ hag) hbg,
      lerpF32_zero a.blue b.blue (isNaN_false_of_finite _ hab) hbb,
      lerpF32_zero a.alpha b.alpha (isNaN_false_of_finite _ haa) hba]
  · unfold Color.lerp
    simp [Color.beq,
      lerpF32_one a.red b.red har (isNaN_false_of_finite _ hbr),
      lerpF32_one a.green b.green hag (isNaN_false_of_finite _ hbg),
      lerpF32_one a.blue b.blue hab (isNaN_false_of_finite _ hbb),
      lerpF32_one a.alpha b.alpha haa (isNaN_false_of_finite _ hba)]

/-- Witness for C6 at two concrete all-finite colors. -/
theorem claim6_lerp_endpoints_witness :
    ((colorW.red.isFinite = true ∧ colorW.green.isFinite = true ∧
        colorW.blue.isFinite = true ∧ colorW.alpha.isFinite = true) ∧
      (colorW2.red.isFinite = true ∧ colorW2.green.isFinite = true ∧
        colorW2.blue.isFinite = true ∧ colorW2.alpha.isFinite = true)) ∧
    (Color.beq (Color.lerp colorW colorW2 f32zero) colorW = true ∧
      Color.beq (Color.lerp colorW colorW2 f32one) colorW2 = true) :=
  ⟨⟨by decide, by decide⟩,
    claim6_lerp_endpoints colorW colorW2 (by decide) (by decide)⟩

/-! ### Facts about trimming -/

theorem dropWhile_dropWhile (p : Char → Bool) (l : List Char) :
    (l.dropWhile p).dropWhile p = l.dropWhile p := by
  induction l with
  | nil => rfl
  | cons a t ih =>
    by_cases h : p a
    · simp [List.dropWhile, h, ih]
    · simp [List.dropWhile, h]

theorem trimLeft_trimLeft (l : List Char) : trimLeft (trimLeft l) = trimLeft l :=
  dropWhile_dropWhile _ _

theorem trimRight_trimRight (l : List Char) : trimRight (trimRight l) = trimRight l := by
  unfold trimRight
  rw [List.reverse_reverse, dropWhile_dropWhile]

theorem trimLeft_head_not_ws (l : List Char) (a : Char)
    (h : (trimLeft l).head? = some a) : rustIsWhitespace a = false := by
  induction l with
  | nil => simp [trimLeft, List.dropWhile] at h
  | cons b t ih =>
    unfold trimLeft List.dropWhile at h
    by_cases hb : rustIsWhitespace b
    · rw [hb] at h
      exact ih h
    · rw [Bool.not_eq_true] at hb
      rw [hb] at h
      simp at h
      rw [← h]
      exact hb

theorem trimLeft_eq_self_of_head (l : List Char)
    (h : ∀ a, l.head? = some a → rustIsWhitespace a = false) : trimLeft l = l := by
  cases l with
  | nil => rfl
  | cons a t =>
    unfold trimLeft List.dropWhile
    rw [h a rfl]

theorem trimRight_front (l : List Char) : trimRight l <+: l := by
  have h := List.dropWhile_suffix (l := l.reverse) rustIsWhitespace
  have h2 : (l.reverse.dropWhile rustIsWhitespace).reverse <+: l.reverse.reverse :=
    List.reverse_prefix.mpr h
  rwa [List.reverse_reverse] at h2

theorem head?_of_front (l₁ l₂ : List Char) (h : l₁ <+: l₂) (hne : l₁ ≠ []) :
    l₁.head? = l₂.head? := by
  obtain ⟨t, rfl⟩ := h
  cases l₁ with
  | nil => exact absurd rfl hne
  | cons a r => rfl

theorem rustTrim_idem (l : List Char) : rustTrim (rustTrim l) = rustTrim l := by
  unfold rustTrim
  have h1 : trimLeft (trimRight (trimLeft l)) = trimRight (trimLeft l) := by
    apply trimLeft_eq_self_of_head
    intro a ha
    by_cases hne : trimRight (trimLeft l) = []
    · rw [hne] at ha
      simp at ha
    · have hh := head?_of_front _ _ (trimRight_front (trimLeft l)) hne
      rw [hh] at ha
      exact trimLeft_head_not_ws l a ha
  rw [h1, trimRight_trimRight]

theorem dropWhile_eq_self_all (p : Char → Bool) (l : List Char)
    (h : ∀ c ∈ l, p c = false) : l.dropWhile p = l := by
  cases l with
  | nil => rfl
  | cons a t =>
    unfold List.dropWhile
    rw [h a (List.mem_cons_self a t)]

theorem rustTrim_eq_self (l : List Char) (h : ∀ c ∈ l, rustIsWhitespace c = false) :
    rustTrim l = l := by
  unfold rustTrim trimLeft trimRight
  rw [dropWhile_eq_self_all _ _ h]
  rw [dropWhile_eq_self_all _ _ (fun c hc => h c (List.mem_reverse.mp hc))]
  exact List.reverse_reverse l

/-- C9: `Color::parse` trims its input first, so parsing any string gives the
same result as parsing the string with leading and trailing whitespace
removed; in particular `"  red  "` parses to the named RED constant although
it is not an exact hex or keyword form. -/
theorem claim9_parse_trim :
    (∀ s : String, Color.parse s = Color.parse (String.mk (rustTrim s.data))) ∧
    Color.parse "  red  " = some Color.RED := by
  refine ⟨?_, rfl⟩
  intro s
  show parseTrimmed (rustTrim s.data) = parseTrimmed (rustTrim (rustTrim s.data))
  rw [rustTrim_idem]

/-! ### Facts about hex parsing -/

theorem hexByte_bounds (b : Nat) (h : (hex_from_ascii_byte b).isSome = true) :
    b < 0x80 ∧ b ≠ 35 := by
  unfold hex_from_ascii_byte at h
  split at h
  · rename_i hc
    simp at hc
    omega
  · split at h
    · rename_i hc
      simp at hc
      omega
    · split at h
      · rename_i hc
        simp at hc
        omega
      · simp at h

theorem hex_not_ws (c : Char) (h : (hex_from_ascii_byte c.toNat).isSome = true) :
    rustIsWhitespace c = false := by
  obtain ⟨hlt, hne⟩ := hexByte_bounds c.toNat h
  unfold hex_from_ascii_byte at h
  unfold rustIsWhitespace
  split at h
  · rename_i hc
    simp at hc
    simp [List.contains]
    omega
  · split at h
    · rename_i hc
      simp at hc
      simp [List.contains]
      omega
    · split at h
      · rename_i hc
        simp at hc
        simp [List.contains]
        omega
      · simp at h

theorem hash_not_ws : rustIsWhitespace '#' = false := rfl

theorem hex_ne_hash (c : Char) (h : (hex_from_ascii_byte c.toNat).isSome = true) :
    c ≠ '#' := by
  intro hcon
  rw [hcon] at h
  simp [hex_from_ascii_byte] at h

theorem utf8_ascii (c : Char) (h : c.toNat < 0x80) : utf8Bytes c = [c.toNat] := by
  unfold utf8Bytes
  rw [if_pos h]

theorem strBytes_cons (c : Char) (l : List Char) :
    strBytes (c :: l) = utf8Bytes c ++ strBytes l := by
  simp [strBytes]

theorem strBytes_map_toNat (l : List Char) (h : ∀ c ∈ l, c.toNat < 0x80) :
    strBytes l = l.map Char.toNat := by
  induction l with
  | nil => rfl
  | cons c t ih =>
    rw [strBytes_cons, utf8_ascii c (h c (List.mem_cons_self c t))]
    rw [ih (fun d hd => h d (List.mem_cons_of_mem c hd))]
    rfl

theorem hex8_isSome (c0 c1 c2 c3 c4 c5 c6 c7 : Nat)
    (h0 : (hex_from_ascii_byte c0).isSome = true)
    (h1 : (hex_from_ascii_byte c1).isSome = true)
    (h2 : (hex_from_ascii_byte c2).isSome = true)
    (h3 : (hex_from_ascii_byte c3).isSome = true)
    (h4 : (hex_from_ascii_byte c4).isSome = true)
    (h5 : (hex_from_ascii_byte c5).isSome = true)
    (h6 : (hex_from_ascii_byte c6).isSome = true)
    (h7 : (hex_from_ascii_byte c7).isSome = true) :
    (hex8 c0 c1 c2 c3 c4 c5 c6 c7).isSome = true := by
  obtain ⟨v0, hv0⟩ := Option.isSome_iff_exists.mp h0
  obtain ⟨v1, hv1⟩ := Option.isSome_iff_exists.mp h1
  obtain ⟨v2, hv2⟩ := Option.isSome_iff_exists.mp h2
  obtain ⟨v3, hv3⟩ := Option.isSome_iff_exists.mp h3
  obtain ⟨v4, hv4⟩ := Option.isSome_iff_exists.mp h4
  obtain ⟨v5, hv5⟩ := Option.isSome_iff_exists.mp h5
  obtain ⟨v6, hv6⟩ := Option.isSome_iff_exists.mp h6
  obtain ⟨v7, hv7⟩ := Option.isSome_iff_exists.mp h7
  unfold hex8
  rw [hv0, hv1, hv2, hv3, hv4, hv5, hv6, hv7]
  rfl

theorem hexf_isSome : (hex_from_ascii_byte 102).isSome = true := by decide

theorem get4_success (l : List Nat)
    (h : ∀ b ∈ l, (hex_from_ascii_byte b).isSome = true)
    (hlen : l.length = 3 ∨ l.length = 4 ∨ l.length = 6 ∨ l.length = 8) :
    (get_4bit_hex_channels l).isSome = true := by
  rcases l with _ | ⟨b0, _ | ⟨b1, _ | ⟨b2, _ | ⟨b3, _ | ⟨b4, _ | ⟨b5, _ | ⟨b6, _ | ⟨b7, rest⟩⟩⟩⟩⟩⟩⟩⟩
  · simp at hlen
  · simp at hlen
  · simp at hlen
  · -- length 3
    exact hex8_isSome _ _ _ _ _ _ _ _ (h b0 (by simp)) (h b0 (by simp)) (h b1 (by simp))
      (h b1 (by simp)) (h b2 (by simp)) (h b2 (by simp)) hexf_isSome hexf_isSome
  · -- length 4
    show (if b0 = 35 then hex8 b1 b1 b2 b2 b3 b3 102 102
      else hex8 b0 b0 b1 b1 b2 b2 b3 b3).isSome = true
    rw [if_neg (by exact (hexByte_bounds b0 (h b0 (by simp))).2)]
    exact hex8_isSome _ _ _ _ _ _ _ _ (h b0 (by simp)) (h b0 (by simp)) (h b1 (by simp))
      (h b1 (by simp)) (h b2 (by simp)) (h b2 (by simp)) (h b3 (by simp)) (h b3 (by simp))
  · simp at hlen
  · -- length 6
    exact hex8_isSome _ _ _ _ _ _ _ _ (h b0 (by simp)) (h b1 (by simp)) (h b2 (by simp))
      (h b3 (by simp)) (h b4 (by simp)) (h b5 (by simp)) hexf_isSome hexf_isSome
  · simp at hlen
  · cases rest with
    | nil =>
      exact hex8_isSome _ _ _ _ _ _ _ _ (h b0 (by simp)) (h b1 (by simp)) (h b2 (by simp))
        (h b3 (by simp)) (h b4 (by simp)) (h b5 (by simp)) (h b6 (by simp)) (h b7 (by simp))
    | cons b8 rest2 => simp at hlen

/-- No entry of the named-color table is a pure hex-digit string: every name
contains at least one character that is not an ASCII hex digit. -/
theorem namedColors_no_hex :
    namedColors.all (fun p => p.1.data.any fun c => !(hex_from_ascii_byte c.toNat).isSome)
      = true := by
  decide

theorem lookup_hex_none (body : List Char)
    (h1 : ∀ c ∈ body, (hex_from_ascii_byte c.toNat).isSome = true) :
    namedColors.find? (fun p => p.1.data == body) = none := by
  rw [List.find?_eq_none]
  intro p hp hbeq
  have heq : p.1.data = body := eq_of_beq hbeq
  have hany := namedColors_no_hex
  rw [List.all_eq_true] at hany
  have hp2 := hany p hp
  rw [List.any_eq_true] at hp2
  obtain ⟨c, hc, hcnot⟩ := hp2
  rw [heq] at hc
  simp [h1 c hc] at hcnot

/-- C2 counterexample: the hex body `abc` parses with a leading `#` but not
without one — without the `#` the string goes to the named-color table and
fails, so the leading `#` is not optional. -/
theorem claim2_counterexample :
    Color.parse "abc" = none ∧ (Color.parse "#abc").isSome = true := ⟨rfl, rfl⟩

/-- C2 (amended): `Color::parse` accepts the hex forms only with the leading
`#`: for every ASCII-hex-digit body of length 3, 4, 6 or 8, parsing `#` ++
body succeeds, while parsing the bare body falls through to the named-color
lookup and fails (no SVG color name is a pure hex-digit string). -/
theorem claim2_hash_required (body : List Char)
    (h1 : ∀ c ∈ body, (hex_from_ascii_byte c.toNat).isSome = true)
    (h2 : body.length = 3 ∨ body.length = 4 ∨ body.length = 6 ∨ body.length = 8) :
    (Color.parse (String.mk ('#' :: body))).isSome = true ∧
    Color.parse (String.mk body) = none := by
  have hascii : ∀ c ∈ body, c.toNat < 0x80 := fun c hc => (hexByte_bounds _ (h1 c hc)).1
  have hnws1 : ∀ c ∈ ('#' :: body), rustIsWhitespace c = false := by
    intro c hc
    rcases List.mem_cons.mp hc with rfl | hc2
    · exact hash_not_ws
    · exact hex_not_ws c (h1 c hc2)
  constructor
  · show (parse_color ('#' :: body)).isSome = true
    unfold parse_color
    rw [rustTrim_eq_self _ hnws1]
    show ((get_4bit_hex_channels (strBytes body)).map color_from_4bit_hex).isSome = true
    rw [strBytes_map_toNat body hascii]
    have hs := get4_success (body.map Char.toNat)
      (by
        intro b hb
        obtain ⟨c, hc, rfl⟩ := List.mem_map.mp hb
        exact h1 c hc)
      (by simpa using h2)
    obtain ⟨v, hv⟩ := Option.isSome_iff_exists.mp hs
    rw [hv]
    rfl
  · show parse_color body = none
    unfold parse_color
    rw [rustTrim_eq_self _ (fun c hc => hex_not_ws c (h1 c hc))]
    rcases body with _ | ⟨c0, rest⟩
    · simp at h2
    · unfold parseTrimmed
      have hsh : stripHash (c0 :: rest) = none := by
        show (if c0 = '#' then some rest else none) = none
        rw [if_neg (hex_ne_hash c0 (h1 c0 (by simp)))]
      rw [hsh]
      show (namedColors.find? (fun p => p.1.data == c0 :: rest)).map (fun p => p.2) = none
      rw [lookup_hex_none (c0 :: rest) h1]
      rfl

/-- Witness for C2 at the body `f00`. -/
theorem claim2_hash_required_witness :
    (∀ c ∈ (['f', '0', '0'] : List Char), (hex_from_ascii_byte c.toNat).isSome = true) ∧
    ((Color.parse (String.mk ('#' :: ['f', '0', '0']))).isSome = true ∧
      Color.parse (String.mk ['f', '0', '0']) = none) :=
  ⟨by decide, claim2_hash_required ['f', '0', '0'] (by decide) (by norm_num)⟩

/-- Prefixing one extra `#` in front of an already-selected hex body does not
change the channels the matcher selects. -/
theorem get4_hash_cons (l : List Nat)
    (h : ∀ b ∈ l, (hex_from_ascii_byte b).isSome = true)
    (hlen : l.length = 3 ∨ l.length = 4 ∨ l.length = 6 ∨ l.length = 8) :
    get_4bit_hex_channels (35 :: l) = get_4bit_hex_channels l := by
  rcases l with _ | ⟨b0, _ | ⟨b1, _ | ⟨b2, _ | ⟨b3, _ | ⟨b4, _ | ⟨b5, _ | ⟨b6, _ | ⟨b7, rest⟩⟩⟩⟩⟩⟩⟩⟩
  · simp at hlen
  · simp at hlen
  · simp at hlen
  · show (if (35 : Nat) = 35 then hex8 b0 b0 b1 b1 b2 b2 102 102
      else hex8 35 35 b0 b0 b1 b1 b2 b2) = hex8 b0 b0 b1 b1 b2 b2 102 102
    rw [if_pos rfl]
  · show (if (35 : Nat) = 35 then hex8 b0 b0 b1 b1 b2 b2 b3 b3 else none)
      = (if b0 = 35 then hex8 b1 b1 b2 b2 b3 b3 102 102 else hex8 b0 b0 b1 b1 b2 b2 b3 b3)
    rw [if_pos rfl, if_neg (hexByte_bounds b0 (h b0 (by simp))).2]
  · simp at hlen
  · show (if (35 : Nat) = 35 then hex8 b0 b1 b2 b3 b4 b5 102 102 else none)
      = hex8 b0 b1 b2 b3 b4 b5 102 102
    rw [if_pos rfl]
  · simp at hlen
  · cases rest with
    | nil =>
      show (if (35 : Nat) = 35 then hex8 b0 b1 b2 b3 b4 b5 b6 b7 else none)
        = hex8 b0 b1 b2 b3 b4 b5 b6 b7
      rw [if_pos rfl]
    | cons b8 rest2 => simp at hlen

/-- Two leading `#` bytes always make the hex matcher fail: whatever arm
matches puts a `#` in a channel position, and `#` is not a hex digit. -/
theorem get4_two_hashes (t : List Nat) :
    get_4bit_hex_channels (35 :: 35 :: t) = none := by
  rcases t with _ | ⟨a, _ | ⟨b, _ | ⟨c, _ | ⟨d, _ | ⟨e, _ | ⟨f, _ | ⟨g, _ | ⟨h, rest⟩⟩⟩⟩⟩⟩⟩⟩
  · rfl
  · rfl
  · rfl
  · rfl
  · rfl
  · rfl
  · rfl
  · rfl
  · rfl

/-- C10: after the leading `#` is stripped, the hex matcher still accepts one
more `#` byte: for every ASCII-hex body of length 3, 4, 6 or 8, `##body`
parses successfully to the same color as `#body`, while three or more `#`
characters make parsing fail. -/
theorem claim10_double_hash (body : List Char) (k : Nat)
    (h1 : ∀ c ∈ body, (hex_from_ascii_byte c.toNat).isSome = true)
    (h2 : body.length = 3 ∨ body.length = 4 ∨ body.length = 6 ∨ body.length = 8)
    (h3 : 3 ≤ k) :
    Color.parse (String.mk ('#' :: '#' :: body)) = Color.parse (String.mk ('#' :: body)) ∧
    (Color.parse (String.mk ('#' :: '#' :: body))).isSome = true ∧
    Color.parse (String.mk (List.replicate k '#' ++ body)) = none := by
  have hascii : ∀ c ∈ body, c.toNat < 0x80 := fun c hc => (hexByte_bounds _ (h1 c hc)).1
  have hnws_body : ∀ c ∈ body, rustIsWhitespace c = false := fun c hc => hex_not_ws c (h1 c hc)
  have hnws1 : ∀ c ∈ ('#' :: body), rustIsWhitespace c = false := by
    intro c hc
    rcases List.mem_cons.mp hc with rfl | hc2
    · exact hash_not_ws
    · exact hnws_body c hc2
  have hnws2 : ∀ c ∈ ('#' :: '#' :: body), rustIsWhitespace c = false := by
    intro c hc
    rcases List.mem_cons.mp hc with rfl | hc2
    · exact hash_not_ws
    · exact hnws1 c hc2
  have hmem : ∀ b ∈ body.map Char.toNat, (hex_from_ascii_byte b).isSome = true := by
    intro b hb
    obtain ⟨c, hc, rfl⟩ := List.mem_map.mp hb
    exact h1 c hc
  have hlenm : (body.map Char.toNat).length = 3 ∨ (body.map Char.toNat).length = 4 ∨
      (body.map Char.toNat).length = 6 ∨ (body.map Char.toNat).length = 8 := by
    simpa using h2
  have hP1 : Color.parse (String.mk ('#' :: body))
      = (get_4bit_hex_channels (strBytes body)).map color_from_4bit_hex := by
    show parse_color ('#' :: body) = _
    unfold parse_color
    rw [rustTrim_eq_self _ hnws1]
    rfl
  have hP2 : Color.parse (String.mk ('#' :: '#' :: body))
      = (get_4bit_hex_channels (35 :: strBytes body)).map color_from_4bit_hex := by
    show parse_color ('#' :: '#' :: body) = _
    unfold parse_color
    rw [rustTrim_eq_self _ hnws2]
    rfl
  have heq : Color.parse (String.mk ('#' :: '#' :: body))
      = Color.parse (String.mk ('#' :: body)) := by
    rw [hP1, hP2, strBytes_map_toNat body hascii, get4_hash_cons _ hmem hlenm]
  refine ⟨heq, ?_, ?_⟩
  · rw [heq, hP1, strBytes_map_toNat body hascii]
    have hs := get4_success (body.map Char.toNat) hmem hlenm
    obtain ⟨v, hv⟩ := Option.isSome_iff_exists.mp hs
    rw [hv]
    rfl
  · obtain ⟨j, rfl⟩ : ∃ j, k = j + 3 := ⟨k - 3, by omega⟩
    have hrep : List.replicate (j + 3) '#' ++ body
        = '#' :: '#' :: '#' :: (List.replicate j '#' ++ body) := rfl
    have hnws3 : ∀ c ∈ (List.replicate (j + 3) '#' ++ body), rustIsWhitespace c = false := by
      intro c hc
      rcases List.mem_append.mp hc with hc2 | hc2
      · rw [(List.eq_of_mem_replicate hc2)]
        exact hash_not_ws
      · exact hnws_body c hc2
    show parse_color (List.replicate (j + 3) '#' ++ body) = none
    unfold parse_color
    rw [rustTrim_eq_self _ hnws3, hrep]
    show (get_4bit_hex_channels (strBytes ('#' :: '#' :: (List.replicate j '#' ++ body)))).map
        color_from_4bit_hex = none
    have hsb : strBytes ('#' :: '#' :: (List.replicate j '#' ++ body))
        = 35 :: 35 :: strBytes (List.replicate j '#' ++ body) := rfl
    rw [hsb, get4_two_hashes]
    rfl

/-- Witness for C10 at the body `abc` and three `#` characters. -/
theorem claim10_double_hash_witness :
    ((∀ c ∈ (['a', 'b', 'c'] : List Char), (hex_from_ascii_byte c.toNat).isSome = true) ∧
      3 ≤ 3) ∧
    (Color.parse (String.mk ('#' :: '#' :: ['a', 'b', 'c']))
        = Color.parse (String.mk ('#' :: ['a', 'b', 'c'])) ∧
      (Color.parse (String.mk ('#' :: '#' :: ['a', 'b', 'c']))).isSome = true ∧
      Color.parse (String.mk (List.replicate 3 '#' ++ ['a', 'b', 'c'])) = none) :=
  ⟨⟨by decide, by norm_num⟩,
    claim10_double_hash ['a', 'b', 'c'] 3 (by decide) (by norm_num) (by norm_num)⟩
